import Mathlib

/-!
# Measurement store of the air-quality monitor

A shallow embedding of `database.go` (the SQLite-backed measurement store), of the
snapshot record and the path selection of `main.go` and of the parts of `server.go` that
call the store (the window parameter of the two query handlers, `handleGetDataJSON`),
followed by theorems about the append path, the windowed fetch, the windowed aggregate,
the handlers and the text of the statements.

Modelling conventions

* Go `int` is `Int`, Go `float64` and SQLite `REAL` are `ℚ` (rounding is not modelled),
  Go `string` and SQLite `TEXT` are `String`.
* A point in time (`time.Time`, the text produced by `CURRENT_TIMESTAMP` and by
  `datetime(...)`) is a number of seconds since 1970-01-01 00:00:00 UTC, an `Int`; both
  SQLite functions have a resolution of one second. A stored timestamp is an instant of
  the years 0000 to 9999, as `CURRENT_TIMESTAMP` writes it; the text of such an instant
  compares with the text `datetime` answers like the numbers do.
* A column of the `measurements` table holds `NULL` (`none`) or a value of its declared
  type; no column of the table is declared `NOT NULL`.
* The table is the list of its rows in rowid order, which is insertion order.
* The clock of the storage engine and the outcome of handing a statement to the engine are
  explicit arguments `now` and `ok` of every operation. A statement either runs as a
  whole or fails as a whole with an error; a fault in the middle of an iteration over
  result rows is not modelled.
* The calendar of the engine is bounded: `datetime` answers `NULL` for an instant before
  Julian day 0 or after the year 9999 (`calendarStart`, `calendarEnd`). Rowids do not run
  out.
* `ORDER BY timestamp` yields rows of equal timestamp in rowid order.
* A Go `int` has 64 bits where its range matters (the scan of the window parameter).
-/

namespace AirQuality

/-! ## The snapshot record (`main.go`) -/

/-- The Go struct `AirQualityData`: one decoded sensor reading. The default of every field
is Go's zero value, which is also what `json.Unmarshal` leaves in a field that the payload
does not mention (`fetchAirQualityData` decodes into a fresh `var data AirQualityData`). -/
structure AirQualityData where
  SensorId : String := ""
  DateTime : String := ""
  Geo : String := ""
  Mem : Int := 0
  Memfrag : Int := 0
  Memfb : Int := 0
  Memcs : Int := 0
  Id : Int := 0
  Lat : ℚ := 0
  Lon : ℚ := 0
  Adc : ℚ := 0
  Loggingrate : Int := 0
  Place : String := ""
  Version : String := ""
  Uptime : Int := 0
  Rssi : Int := 0
  Period : Int := 0
  Httpsuccess : Int := 0
  Httpsends : Int := 0
  Hardwareversion : String := ""
  Hardwarediscovered : String := ""
  CurrentTempF : ℚ := 0
  CurrentHumidity : Int := 0
  CurrentDewpointF : ℚ := 0
  Pressure : ℚ := 0
  CurrentTempF680 : ℚ := 0
  CurrentHumidity680 : Int := 0
  CurrentDewpointF680 : ℚ := 0
  Pressure680 : ℚ := 0
  Gas680 : ℚ := 0
  P25aqicB : String := ""
  Pm25AqiB : Int := 0
  Pm10Cf1B : ℚ := 0
  P03UmB : ℚ := 0
  Pm25Cf1B : ℚ := 0
  P05UmB : ℚ := 0
  Pm100Cf1B : ℚ := 0
  P10UmB : ℚ := 0
  Pm10AtmB : ℚ := 0
  P25UmB : ℚ := 0
  Pm25AtmB : ℚ := 0
  P50UmB : ℚ := 0
  Pm100AtmB : ℚ := 0
  P100UmB : ℚ := 0
  P25aqic : String := ""
  Pm25Aqi : Int := 0
  Pm10Cf1 : ℚ := 0
  P03Um : ℚ := 0
  Pm25Cf1 : ℚ := 0
  P05Um : ℚ := 0
  Pm100Cf1 : ℚ := 0
  P10Um : ℚ := 0
  Pm10Atm : ℚ := 0
  P25Um : ℚ := 0
  Pm25Atm : ℚ := 0
  P50Um : ℚ := 0
  Pm100Atm : ℚ := 0
  P100Um : ℚ := 0
  PaLatency : Int := 0
  Wlstate : String := ""
  Status0 : Int := 0
  Status1 : Int := 0
  Status2 : Int := 0
  Status3 : Int := 0
  Status4 : Int := 0
  Ssid : String := ""

/-! ## The table (`createTables`) -/

/-- One row of the table `measurements`, a field per column of the `CREATE TABLE`
statement of `createTables`, in the order of the statement. -/
structure Row where
  id : Int
  timestamp : Option Int
  sensor_id : Option String
  datetime : Option String
  geo : Option String
  lat : Option ℚ
  lon : Option ℚ
  place : Option String
  version : Option String
  uptime : Option Int
  rssi : Option Int
  wlstate : Option String
  ssid : Option String
  current_temp_f : Option ℚ
  current_humidity : Option Int
  current_dewpoint_f : Option ℚ
  pressure : Option ℚ
  gas_680 : Option ℚ
  pm25_aqi : Option Int
  pm10_cf1 : Option ℚ
  pm25_cf1 : Option ℚ
  pm100_cf1 : Option ℚ
  pm10_atm : Option ℚ
  pm25_atm : Option ℚ
  pm100_atm : Option ℚ
  pm25_aqi_b : Option Int
  pm10_cf1_b : Option ℚ
  pm25_cf1_b : Option ℚ
  pm100_cf1_b : Option ℚ
  pm10_atm_b : Option ℚ
  pm25_atm_b : Option ℚ
  pm100_atm_b : Option ℚ
  mem : Option Int
  memfrag : Option Int
  memfb : Option Int
  memcs : Option Int
  adc : Option ℚ
  httpsuccess : Option Int
  httpsends : Option Int
  pa_latency : Option Int
  status_0 : Option Int
  status_1 : Option Int
  status_2 : Option Int
  status_3 : Option Int
  status_4 : Option Int

/-- The table `measurements` together with its `AUTOINCREMENT` counter (the entry of
`sqlite_sequence`: the largest rowid ever handed out). -/
structure Table where
  rows : List Row
  seq : Int

/-- The Go struct `Database`: the handle `db *sql.DB`, that is the table it is connected
to and whether `Close` has been called on the handle. -/
structure Database where
  table : Table
  closed : Bool

/-- The error a `database/sql` call returns: `sql: database is closed` for a handle that
was closed, or an error reported by the storage engine. -/
inductive SqlError where
  | dbClosed
  | engine
deriving DecidableEq

/-- The errors of `database.go`, each a `fmt.Errorf` wrapping of the `database/sql`
error. -/
inductive StoreError where
  | openFailed (cause : SqlError)
  | createTablesFailed (cause : SqlError)
  | insertFailed (cause : SqlError)
  | queryFailed (cause : SqlError)
  | statsFailed (cause : SqlError)
deriving DecidableEq

/-- The Go struct `Measurement`: the summary of a row used for graphing. -/
structure Measurement where
  Timestamp : Int
  SensorID : String
  Temperature : ℚ
  Humidity : Int
  Pressure : ℚ
  Gas680 : ℚ
  PM25AQI : Int
  PM25CF1 : ℚ
  PM100CF1 : ℚ
  PM25AQIB : Int
  PM25CF1B : ℚ
  PM100CF1B : ℚ
  Memory : Int
  RSSI : Int
  PaLatency : Int
deriving DecidableEq

/-- The Go struct `MeasurementStats`. -/
structure MeasurementStats where
  Count : Int
  AvgTemp : ℚ
  AvgHumidity : ℚ
  AvgPressure : ℚ
  AvgPM25AQI : ℚ
  AvgPM25CF1 : ℚ
  AvgPM100CF1 : ℚ
  MaxPM25AQI : Int
  MinPM25AQI : Int
  MaxTemp : ℚ
  MinTemp : ℚ
deriving DecidableEq

/-- What `sql.DB.Exec`, `Query` and `QueryRow` answer before the statement runs: the error
`sql: database is closed` on a closed handle, an engine error when the engine does not
execute the statement (`ok = false`), nothing otherwise. -/
def execError (d : Database) (ok : Bool) : Option SqlError :=
  if d.closed then some SqlError.dbClosed
  else if ok then none
  else some SqlError.engine

/-- The effect of `CREATE TABLE IF NOT EXISTS measurements (...)`: an existing table is
kept as it is, a missing one is created empty. -/
def createTables (existing : Option Table) : Table :=
  match existing with
  | some t => t
  | none => { rows := [], seq := 0 }

/-- The function `NewDatabase`: opens the location and creates the table when it does not
exist. -/
def NewDatabase (existing : Option Table) (ok : Bool) : Except StoreError Database :=
  if ok then Except.ok { table := createTables existing, closed := false }
  else Except.error (StoreError.createTablesFailed SqlError.engine)

/-! ## The append path (`StoreMeasurement`) -/

/-- The largest rowid present in a list of rows (`0` for no row). -/
def maxRowid (rows : List Row) : Int :=
  rows.foldl (fun m r => max m r.id) 0

/-- The rowid that `INTEGER PRIMARY KEY AUTOINCREMENT` gives the next row: one more than
the largest rowid that is or ever was in the table. -/
def nextRowid (t : Table) : Int :=
  max t.seq (maxRowid t.rows) + 1

/-- The row the `INSERT` of `StoreMeasurement` writes: the i-th bound argument under the
i-th named column, `id` from `AUTOINCREMENT`, and `timestamp`, which the statement does not
name, from its default `CURRENT_TIMESTAMP`. -/
def insertedRow (id now : Int) (data : AirQualityData) : Row :=
  { id := id
    timestamp := some now
    sensor_id := some data.SensorId
    datetime := some data.DateTime
    geo := some data.Geo
    lat := some data.Lat
    lon := some data.Lon
    place := some data.Place
    version := some data.Version
    uptime := some data.Uptime
    rssi := some data.Rssi
    wlstate := some data.Wlstate
    ssid := some data.Ssid
    current_temp_f := some data.CurrentTempF
    current_humidity := some data.CurrentHumidity
    current_dewpoint_f := some data.CurrentDewpointF
    pressure := some data.Pressure
    gas_680 := some data.Gas680
    pm25_aqi := some data.Pm25Aqi
    pm10_cf1 := some data.Pm10Cf1
    pm25_cf1 := some data.Pm25Cf1
    pm100_cf1 := some data.Pm100Cf1
    pm10_atm := some data.Pm10Atm
    pm25_atm := some data.Pm25Atm
    pm100_atm := some data.Pm100Atm
    pm25_aqi_b := some data.Pm25AqiB
    pm10_cf1_b := some data.Pm10Cf1B
    pm25_cf1_b := some data.Pm25Cf1B
    pm100_cf1_b := some data.Pm100Cf1B
    pm10_atm_b := some data.Pm10AtmB
    pm25_atm_b := some data.Pm25AtmB
    pm100_atm_b := some data.Pm100AtmB
    mem := some data.Mem
    memfrag := some data.Memfrag
    memfb := some data.Memfb
    memcs := some data.Memcs
    adc := some data.Adc
    httpsuccess := some data.Httpsuccess
    httpsends := some data.Httpsends
    pa_latency := some data.PaLatency
    status_0 := some data.Status0
    status_1 := some data.Status1
    status_2 := some data.Status2
    status_3 := some data.Status3
    status_4 := some data.Status4 }

/-- The method `StoreMeasurement`: one `INSERT`; the new state of the store and the
returned error (`none` is Go's `nil`). A statement that is not executed leaves the table as
it was. -/
def StoreMeasurement (d : Database) (now : Int) (ok : Bool) (data : AirQualityData) :
    Database × Option StoreError :=
  match execError d ok with
  | some e => (d, some (StoreError.insertFailed e))
  | none =>
    ({ d with table :=
        { rows := d.table.rows ++ [insertedRow (nextRowid d.table) now data]
          seq := nextRowid d.table } }, none)

/-! ## The window -/

/-- The first instant of the calendar of SQLite: Julian day 0, noon of 24 November of the
year -4713, in seconds since 1970-01-01 00:00:00 UTC. -/
def calendarStart : Int := -210866760000

/-- The last second of the calendar of SQLite: 9999-12-31 23:59:59. -/
def calendarEnd : Int := 253402300799

/-- Whether the instant `hours` hours before `now` is a date of the calendar of SQLite,
`now` being one. From the present day this holds up to about 59 million hours. -/
def windowInCalendar (now hours : Int) : Bool :=
  decide (calendarStart ≤ now - hours * 3600 ∧ now ≤ calendarEnd)

/-- The value of `datetime('now', '-' + fmt.Sprintf("%d", hours) + ' hours')`. For
`hours >= 0` the modifier reads `-N hours` and moves `now` back by `N` hours, and
`datetime` answers `NULL` when that leaves the calendar; for `hours < 0` the spliced text
starts with `--`, which is no modifier, and `datetime` answers `NULL`. -/
def windowStart (now hours : Int) : Option Int :=
  if hours < 0 then none
  else if windowInCalendar now hours then some (now - hours * 3600)
  else none

/-- The `WHERE` clause `timestamp >= datetime(...)`: a comparison with `NULL` on either
side is not true. -/
def inWindow (start : Option Int) (r : Row) : Bool :=
  match r.timestamp, start with
  | some t, some c => decide (c ≤ t)
  | _, _ => false

/-- The sort key of `ORDER BY timestamp ASC`: `NULL` sorts before every value. -/
def Row.sortKey (r : Row) : WithBot Int :=
  match r.timestamp with
  | some t => ((t : Int) : WithBot Int)
  | none => ⊥

/-- The order of `ORDER BY timestamp ASC`. -/
def tsLE (a b : Row) : Prop := a.sortKey ≤ b.sortKey

instance tsLE_decidable : DecidableRel tsLE := fun a b =>
  inferInstanceAs (Decidable (a.sortKey ≤ b.sortKey))

instance tsLE_total : IsTotal Row tsLE :=
  ⟨fun a b => le_total a.sortKey b.sortKey⟩

instance tsLE_trans : IsTrans Row tsLE :=
  ⟨fun a _ _ hab hbc => le_trans (a := a.sortKey) hab hbc⟩

/-- The rows the `SELECT` of `GetRecentMeasurements` yields, in the order it yields them:
the rows of the window, ascending by timestamp, rows of equal timestamp in rowid order. -/
def selectRecent (t : Table) (now hours : Int) : List Row :=
  (t.rows.filter (inWindow (windowStart now hours))).insertionSort tsLE

/-- The rows the `SELECT` of `GetMeasurementStats` aggregates over. -/
def selectWindow (t : Table) (now hours : Int) : List Row :=
  t.rows.filter (inWindow (windowStart now hours))

/-! ## The windowed fetch (`GetRecentMeasurements`) -/

/-- The call `rows.Scan` into the fields of a `Measurement`: a `NULL` in one of the fifteen
selected columns cannot be stored in a Go `time.Time`, `string`, `float64` or `int`, and `Scan`
returns an error (`none`). -/
def scanMeasurement (r : Row) : Option Measurement :=
  match r.timestamp with
  | none => none
  | some ts =>
  match r.sensor_id with
  | none => none
  | some sid =>
  match r.current_temp_f with
  | none => none
  | some temp =>
  match r.current_humidity with
  | none => none
  | some hum =>
  match r.pressure with
  | none => none
  | some pres =>
  match r.gas_680 with
  | none => none
  | some gas =>
  match r.pm25_aqi with
  | none => none
  | some aqi =>
  match r.pm25_cf1 with
  | none => none
  | some cf25 =>
  match r.pm100_cf1 with
  | none => none
  | some cf100 =>
  match r.pm25_aqi_b with
  | none => none
  | some aqiB =>
  match r.pm25_cf1_b with
  | none => none
  | some cf25B =>
  match r.pm100_cf1_b with
  | none => none
  | some cf100B =>
  match r.mem with
  | none => none
  | some mem =>
  match r.rssi with
  | none => none
  | some rssi =>
  match r.pa_latency with
  | none => none
  | some lat =>
  some
    { Timestamp := ts, SensorID := sid, Temperature := temp, Humidity := hum
      Pressure := pres, Gas680 := gas, PM25AQI := aqi, PM25CF1 := cf25
      PM100CF1 := cf100, PM25AQIB := aqiB, PM25CF1B := cf25B, PM100CF1B := cf100B
      Memory := mem, RSSI := rssi, PaLatency := lat }

/-- The loop `for rows.Next() { ... }` of `GetRecentMeasurements`: a row whose `Scan`
fails is logged and skipped (`continue`), any other row is appended. -/
def scanLoop : List Row → List Measurement → List Measurement
  | [], measurements => measurements
  | r :: rest, measurements =>
    match scanMeasurement r with
    | none => scanLoop rest measurements
    | some m => scanLoop rest (measurements ++ [m])

/-- The method `GetRecentMeasurements`: the query, then the scan loop over the rows it
yields; a query that does not run gives the error and no sequence. -/
def GetRecentMeasurements (d : Database) (now : Int) (ok : Bool) (hours : Int) :
    Except StoreError (List Measurement) :=
  match execError d ok with
  | some e => Except.error (StoreError.queryFailed e)
  | none => Except.ok (scanLoop (selectRecent d.table now hours) [])

/-! ## The windowed aggregate (`GetMeasurementStats`) -/

/-- SQL `AVG`: the mean of the values that are not `NULL`, `NULL` when there is none. -/
def sqlAvg (col : List (Option ℚ)) : Option ℚ :=
  match col.reduceOption with
  | [] => none
  | v :: vs => some ((v :: vs).sum / ((v :: vs).length : ℚ))

/-- SQL `MAX`: the largest of the values that are not `NULL`, `NULL` when there is none. -/
def sqlMax {α : Type} [LinearOrder α] (col : List (Option α)) : Option α :=
  match col.reduceOption with
  | [] => none
  | v :: vs => some (vs.foldl max v)

/-- SQL `MIN`: the smallest of the values that are not `NULL`, `NULL` when there is
none. -/
def sqlMin {α : Type} [LinearOrder α] (col : List (Option α)) : Option α :=
  match col.reduceOption with
  | [] => none
  | v :: vs => some (vs.foldl min v)

/-- SQL `COALESCE(x, 0)`. -/
def coalesce {α : Type} [Zero α] (x : Option α) : α :=
  match x with
  | some v => v
  | none => 0

/-- An `INTEGER` column read as numbers for `AVG`. -/
def asReal (col : List (Option Int)) : List (Option ℚ) :=
  col.map (fun o => o.map (fun n => (n : ℚ)))

/-- The method `GetMeasurementStats`: the one row of aggregates over the window. -/
def GetMeasurementStats (d : Database) (now : Int) (ok : Bool) (hours : Int) :
    Except StoreError MeasurementStats :=
  match execError d ok with
  | some e => Except.error (StoreError.statsFailed e)
  | none =>
    let rows := selectWindow d.table now hours
    Except.ok
      { Count := (rows.length : Int)
        AvgTemp := coalesce (sqlAvg (rows.map Row.current_temp_f))
        AvgHumidity := coalesce (sqlAvg (asReal (rows.map Row.current_humidity)))
        AvgPressure := coalesce (sqlAvg (rows.map Row.pressure))
        AvgPM25AQI := coalesce (sqlAvg (asReal (rows.map Row.pm25_aqi)))
        AvgPM25CF1 := coalesce (sqlAvg (rows.map Row.pm25_cf1))
        AvgPM100CF1 := coalesce (sqlAvg (rows.map Row.pm100_cf1))
        MaxPM25AQI := coalesce (sqlMax (rows.map Row.pm25_aqi))
        MinPM25AQI := coalesce (sqlMin (rows.map Row.pm25_aqi))
        MaxTemp := coalesce (sqlMax (rows.map Row.current_temp_f))
        MinTemp := coalesce (sqlMin (rows.map Row.current_temp_f)) }

/-- The method `Close`: closes the handle; closing a closed handle is not an error. -/
def Close (d : Database) : Database × Option StoreError :=
  ({ d with closed := true }, none)

/-! ## Runs of the store -/

/-- One call on the store, with the clock reading and engine outcome it meets. -/
inductive Call where
  | store (now : Int) (ok : Bool) (data : AirQualityData)
  | recent (now : Int) (ok : Bool) (hours : Int)
  | stats (now : Int) (ok : Bool) (hours : Int)
  | close

/-- The state of the store after a call. The two reads take the `Database` and return
no new one. -/
def step (d : Database) : Call → Database
  | Call.store now ok data => (StoreMeasurement d now ok data).1
  | Call.recent _ _ _ => d
  | Call.stats _ _ _ => d
  | Call.close => (Close d).1

/-- The state of the store after a sequence of calls. -/
def run (d : Database) (calls : List Call) : Database :=
  calls.foldl step d

/-- The clock readings that the `StoreMeasurement` calls of a sequence meet, in order. -/
def insertTimes : List Call → List Int
  | [] => []
  | Call.store now _ _ :: rest => now :: insertTimes rest
  | Call.recent _ _ _ :: rest => insertTimes rest
  | Call.stats _ _ _ :: rest => insertTimes rest
  | Call.close :: rest => insertTimes rest

/-- A freshly created store: `NewDatabase` on a location that holds no table yet. -/
def freshDatabase : Database :=
  { table := createTables none, closed := false }

/-! ## The window as the specification words it -/

/-- The rows whose ingestion timestamp is not before `start`. -/
def notBefore (start : Int) (r : Row) : Bool :=
  match r.timestamp with
  | some t => decide (start ≤ t)
  | none => false

/-- The closed window of the specification, `now - hours <= t <= now`, that claim C1
compares the fetch with. -/
def inClosedWindow (now hours : Int) (r : Row) : Bool :=
  match r.timestamp with
  | some t => decide (now - hours * 3600 ≤ t ∧ t ≤ now)
  | none => false

/-- Claim C1 as it is worded, at one store, instant and window: the fetch returns a
summary for each row of the closed window, each once, and nothing else. -/
def ReturnsClosedWindow (d : Database) (now hours : Int) : Prop :=
  ∃ ms, GetRecentMeasurements d now true hours = Except.ok ms ∧
    (ms.map some).Perm ((d.table.rows.filter (inClosedWindow now hours)).map scanMeasurement)

/-! ## Example stores -/

/-- A snapshot with a sensor id and a temperature of 70, every other field absent. -/
def sampleReading : AirQualityData :=
  { SensorId := "sensor-1", CurrentTempF := 70 }

/-- A store after three appends, at the instants 0 h, 5 h and 28 h. -/
def threeRowStore : Database :=
  (StoreMeasurement
    (StoreMeasurement
      (StoreMeasurement freshDatabase 0 true sampleReading).1
      (5 * 3600) true sampleReading).1
    (28 * 3600) true sampleReading).1

/-- A store whose only row was appended at the instant 1 h. -/
def laterStore : Database :=
  (StoreMeasurement freshDatabase 3600 true sampleReading).1

/-- A store whose only row holds `NULL` in the column `current_temp_f`. -/
def nullTempStore : Database :=
  { table := { rows := [{ insertedRow 1 0 sampleReading with current_temp_f := none }], seq := 1 }
    closed := false }

/-- The summary that `GetRecentMeasurements` reads back from the row that
`StoreMeasurement` wrote for the snapshot `s` at the instant `now`. -/
def summaryOf (now : Int) (s : AirQualityData) : Measurement :=
  { Timestamp := now, SensorID := s.SensorId, Temperature := s.CurrentTempF
    Humidity := s.CurrentHumidity, Pressure := s.Pressure, Gas680 := s.Gas680
    PM25AQI := s.Pm25Aqi, PM25CF1 := s.Pm25Cf1, PM100CF1 := s.Pm100Cf1
    PM25AQIB := s.Pm25AqiB, PM25CF1B := s.Pm25Cf1B, PM100CF1B := s.Pm100Cf1B
    Memory := s.Mem, RSSI := s.Rssi, PaLatency := s.PaLatency }

/-! ## The aggregates as the specification words them -/

/-- The number `a` is the mean of the values `vs`, or the neutral value 0 when there is
no value. -/
def IsMeanOrZero (vs : List ℚ) (a : ℚ) : Prop :=
  (vs = [] → a = 0) ∧ (vs ≠ [] → a * (vs.length : ℚ) = vs.sum)

/-- The value `a` is the largest of the values `vs`, or the neutral value 0 when there is
no value. -/
def IsMaxOrZero {α : Type} [LinearOrder α] [Zero α] (vs : List α) (a : α) : Prop :=
  (vs = [] → a = 0) ∧ (vs ≠ [] → a ∈ vs ∧ ∀ v ∈ vs, v ≤ a)

/-- The value `a` is the smallest of the values `vs`, or the neutral value 0 when there is
no value. -/
def IsMinOrZero {α : Type} [LinearOrder α] [Zero α] (vs : List α) (a : α) : Prop :=
  (vs = [] → a = 0) ∧ (vs ≠ [] → a ∈ vs ∧ ∀ v ∈ vs, a ≤ v)

/-- The values of an integer column as numbers. -/
def asNumbers (vs : List Int) : List ℚ :=
  vs.map (fun n => (n : ℚ))

/-- A snapshot decoded from a payload that has a sensor id and no temperature: the field
`CurrentTempF` keeps Go's zero value. -/
def absentTempReading : AirQualityData :=
  { SensorId := "sensor-1" }

/-- A store after the append of a snapshot with the temperature 70 and of a snapshot
whose temperature is absent. -/
def mixedStore : Database :=
  (StoreMeasurement (StoreMeasurement freshDatabase 0 true sampleReading).1 0 true
    absentTempReading).1

/-- The calls that append the given snapshots, each at its instant, the engine running
every insert. -/
def appendCalls (readings : List (Int × AirQualityData)) : List Call :=
  readings.map (fun p => Call.store p.1 true p.2)

/-- A store with two rows of the same instant, the first with `NULL` in the column
`current_temp_f`. -/
def partlyNullStore : Database :=
  { table :=
      { rows := [{ insertedRow 1 0 sampleReading with current_temp_f := none },
          insertedRow 2 0 sampleReading]
        seq := 2 }
    closed := false }

/-- Whether `Scan` fails on a row. -/
def undecodable (r : Row) : Bool :=
  (scanMeasurement r).isNone

/-- The same call with the snapshot of a `StoreMeasurement` replaced. -/
def Call.mapData (f : AirQualityData → AirQualityData) : Call → Call
  | Call.store now ok data => Call.store now ok (f data)
  | Call.recent now ok hours => Call.recent now ok hours
  | Call.stats now ok hours => Call.stats now ok hours
  | Call.close => Call.close

/-- The identity and the ingestion timestamp of every row of the store, in insertion
order. -/
def rowKeys (d : Database) : List (Int × Option Int) :=
  d.table.rows.map (fun r => (r.id, r.timestamp))

/-- Two stores agree on everything but the snapshot fields of their rows. -/
def SameKeys (d e : Database) : Prop :=
  d.closed = e.closed ∧ d.table.seq = e.table.seq ∧ rowKeys d = rowKeys e

/-! ## Opening the store (`main`, `NewDatabase`) -/

/-- The path `main` hands to `NewDatabase` in server mode: the value of the environment
variable `DATABASE_PATH` (`os.Getenv` answers the empty string for an unset variable), or
`air_quality.db` when that is empty. -/
def databasePath (env : String) : String :=
  if env = "" then "air_quality.db" else env

/-- The content of a location after `NewDatabase` was called on it: the table of the
handle when the call succeeded, the content as it was when it failed. -/
def locationAfterOpen (existing : Option Table) (ok : Bool) : Option Table :=
  match NewDatabase existing ok with
  | Except.ok d => some d.table
  | Except.error _ => existing

/-- The content of a location after `n` successful calls of `NewDatabase` on it. -/
def reopened : Nat → Option Table → Option Table
  | 0, location => location
  | n + 1, location => reopened n (locationAfterOpen location true)

/-! ## The query facade (`server.go`): the window parameter -/

/-- The function `isSpace` of Go's package `fmt`: the white space a scan skips. -/
def isSpace (c : Char) : Bool :=
  decide ((0x09 ≤ c.toNat ∧ c.toNat ≤ 0x0d) ∨ c.toNat = 0x20 ∨ c.toNat = 0x85 ∨
    c.toNat = 0xa0 ∨ c.toNat = 0x1680 ∨ (0x2000 ≤ c.toNat ∧ c.toNat ≤ 0x200a) ∨
    c.toNat = 0x2028 ∨ c.toNat = 0x2029 ∨ c.toNat = 0x202f ∨ c.toNat = 0x205f ∨
    c.toNat = 0x3000)

/-- The method `SkipSpace` of a scan started by `Sscanf`, where a newline is no white
space: the input after the leading white space, or `none` for the error
`unexpected newline`. -/
def skipSpace : List Char → Option (List Char)
  | [] => some []
  | c :: rest =>
    if c.toNat = 10 then none
    else if isSpace c then skipSpace rest
    else some (c :: rest)

/-- The number that a string of decimal digits denotes. -/
def digitsValue (digits : List Char) : Int :=
  digits.foldl (fun acc c => 10 * acc + ((c.toNat - 48 : Nat) : Int)) 0

/-- The scan of the verb `%d` into a Go `int` of 64 bits (`scanInt`): leading white space
is skipped, one sign is accepted, at least one decimal digit is required and all that
follow are taken, and the token must be in the range of `int64` (`strconv.ParseInt`).
What follows the digits is left unread. The result is `none` when the scan fails. -/
def scanInt (input : List Char) : Option Int :=
  match skipSpace input with
  | none => none
  | some [] => none
  | some (c :: rest) =>
    let negative := decide (c = '-')
    let afterSign := if c = '-' ∨ c = '+' then rest else c :: rest
    let digits := afterSign.takeWhile Char.isDigit
    let value := if negative then -digitsValue digits else digitsValue digits
    if digits = [] then none
    else if -(2 ^ 63) ≤ value ∧ value < 2 ^ 63 then some value
    else none

/-- What `fmt.Sscanf(h, "%d", &hours)` leaves behind: the number of items parsed, whether
the returned error is not nil, and the value of the variable `hours` after the call. -/
structure ScanOutcome where
  parsed : Int
  failed : Bool
  hours : Int

/-- The call `fmt.Sscanf(h, "%d", &hours)`: one item and a nil error when the scan
succeeds, and then the variable holds the scanned number; no item and an error when it
fails, and then the variable keeps its value. -/
def Sscanf (h : String) (hours : Int) : ScanOutcome :=
  match scanInt h.data with
  | some value => { parsed := 1, failed := false, hours := value }
  | none => { parsed := 0, failed := true, hours := hours }

/-- The window that `handleGetMeasurements` computes from the query parameter `hours`
(`h`, the empty string when the parameter is absent), with its condition
`err != nil || parsed != 1`. -/
def hoursOfGetMeasurements (h : String) : Int :=
  if h ≠ "" then
    if (Sscanf h 24).failed ∨ (Sscanf h 24).parsed ≠ 1 then 24 else (Sscanf h 24).hours
  else 24

/-- The window that `handleGetStats` computes from the query parameter `hours`, with its
condition `parsed != 1 || err != nil`. -/
def hoursOfGetStats (h : String) : Int :=
  if h ≠ "" then
    if (Sscanf h 24).parsed ≠ 1 ∨ (Sscanf h 24).failed then 24 else (Sscanf h 24).hours
  else 24

/-- The window as claim C18 words it: 24 when the parameter is absent, empty or does not
scan as a decimal integer, the scanned integer otherwise. -/
def windowOfParameter (h : String) : Int :=
  match scanInt h.data with
  | some value => value
  | none => 24

/-! ## The query facade (`server.go`): `handleGetDataJSON` -/

/-- What a handler writes as the body of a response: a line of text (`http.Error`) or the
JSON encoding of a snapshot (`json.NewEncoder(w).Encode(data)`). -/
inductive Body where
  | line (text : String)
  | json (data : AirQualityData)

/-- The response a handler leaves in the `http.ResponseWriter`: the status code, the
headers in the order they were set, and the body. -/
structure Response where
  status : Nat
  headers : List (String × String)
  body : Body

/-- The function `http.Error`: a plain-text response with the given status. -/
def httpError (text : String) (code : Nat) : Response :=
  { status := code
    headers := [("Content-Type", "text/plain; charset=utf-8"),
      ("X-Content-Type-Options", "nosniff")]
    body := Body.line text }

/-- The handler `handleGetDataJSON`: `fetched` is what `fetchAirQualityData` returned,
`database` the field `s.database` (`none` is the nil pointer). The result is the response
and the store afterwards. An error of `StoreMeasurement` is logged and nothing else. -/
def handleGetDataJSON (database : Option Database)
    (fetched : Except String AirQualityData) (now : Int) (ok : Bool) :
    Response × Option Database :=
  match fetched with
  | Except.error message =>
    (httpError ("Error fetching data: " ++ message) 500, database)
  | Except.ok data =>
    ({ status := 200
       headers := [("Content-Type", "application/json"),
         ("Access-Control-Allow-Origin", "*")]
       body := Body.json data },
     match database with
     | none => none
     | some d => some (StoreMeasurement d now ok data).1)

/-- A snapshot that differs from `sampleReading` in the field `Id` alone. -/
def otherIdReading : AirQualityData :=
  { sampleReading with Id := 7 }

/-! ## The statements of `createTables` and `StoreMeasurement` as lists -/

/-- A value of a cell or of a bound argument. -/
inductive Value where
  | null
  | integer (n : Int)
  | real (q : ℚ)
  | text (s : String)
  | datetime (t : Int)
deriving DecidableEq

/-- The columns of the table, in the order of the `CREATE TABLE` statement. -/
def tableColumns : List String :=
  ["id", "timestamp", "sensor_id", "datetime", "geo", "lat", "lon", "place", "version",
    "uptime", "rssi", "wlstate", "ssid", "current_temp_f", "current_humidity",
    "current_dewpoint_f", "pressure", "gas_680", "pm25_aqi", "pm10_cf1", "pm25_cf1",
    "pm100_cf1", "pm10_atm", "pm25_atm", "pm100_atm", "pm25_aqi_b", "pm10_cf1_b",
    "pm25_cf1_b", "pm100_cf1_b", "pm10_atm_b", "pm25_atm_b", "pm100_atm_b", "mem",
    "memfrag", "memfb", "memcs", "adc", "httpsuccess", "httpsends", "pa_latency",
    "status_0", "status_1", "status_2", "status_3", "status_4"]

/-- The columns the `INSERT` of `StoreMeasurement` names, in order. -/
def insertColumns : List String :=
  ["sensor_id", "datetime", "geo", "lat", "lon", "place", "version", "uptime", "rssi",
    "wlstate", "ssid", "current_temp_f", "current_humidity", "current_dewpoint_f",
    "pressure", "gas_680", "pm25_aqi", "pm10_cf1", "pm25_cf1", "pm100_cf1", "pm10_atm",
    "pm25_atm", "pm100_atm", "pm25_aqi_b", "pm10_cf1_b", "pm25_cf1_b", "pm100_cf1_b",
    "pm10_atm_b", "pm25_atm_b", "pm100_atm_b", "mem", "memfrag", "memfb", "memcs", "adc",
    "httpsuccess", "httpsends", "pa_latency", "status_0", "status_1", "status_2",
    "status_3", "status_4"]

/-- The placeholders of the `VALUES` clause of the `INSERT`. -/
def insertPlaceholders : String :=
  "?, ?, ?, ?, ?, ?, ?, ?, ?, ?, ?, ?, ?, ?, ?, ?, ?, ?, ?, ?, ?, ?, ?, ?, ?, ?, ?, ?, ?, ?, ?, ?, ?, ?, ?, ?, ?, ?, ?, ?, ?, ?, ?"

/-- The arguments `StoreMeasurement` passes to `Exec` after the statement, in order: the
name of the field of `data` and its value. -/
def insertArgs (data : AirQualityData) : List (String × Value) :=
  [("SensorId", Value.text data.SensorId), ("DateTime", Value.text data.DateTime),
    ("Geo", Value.text data.Geo), ("Lat", Value.real data.Lat),
    ("Lon", Value.real data.Lon), ("Place", Value.text data.Place),
    ("Version", Value.text data.Version), ("Uptime", Value.integer data.Uptime),
    ("Rssi", Value.integer data.Rssi), ("Wlstate", Value.text data.Wlstate),
    ("Ssid", Value.text data.Ssid), ("CurrentTempF", Value.real data.CurrentTempF),
    ("CurrentHumidity", Value.integer data.CurrentHumidity),
    ("CurrentDewpointF", Value.real data.CurrentDewpointF),
    ("Pressure", Value.real data.Pressure), ("Gas680", Value.real data.Gas680),
    ("Pm25Aqi", Value.integer data.Pm25Aqi), ("Pm10Cf1", Value.real data.Pm10Cf1),
    ("Pm25Cf1", Value.real data.Pm25Cf1), ("Pm100Cf1", Value.real data.Pm100Cf1),
    ("Pm10Atm", Value.real data.Pm10Atm), ("Pm25Atm", Value.real data.Pm25Atm),
    ("Pm100Atm", Value.real data.Pm100Atm), ("Pm25AqiB", Value.integer data.Pm25AqiB),
    ("Pm10Cf1B", Value.real data.Pm10Cf1B), ("Pm25Cf1B", Value.real data.Pm25Cf1B),
    ("Pm100Cf1B", Value.real data.Pm100Cf1B), ("Pm10AtmB", Value.real data.Pm10AtmB),
    ("Pm25AtmB", Value.real data.Pm25AtmB), ("Pm100AtmB", Value.real data.Pm100AtmB),
    ("Mem", Value.integer data.Mem), ("Memfrag", Value.integer data.Memfrag),
    ("Memfb", Value.integer data.Memfb), ("Memcs", Value.integer data.Memcs),
    ("Adc", Value.real data.Adc), ("Httpsuccess", Value.integer data.Httpsuccess),
    ("Httpsends", Value.integer data.Httpsends),
    ("PaLatency", Value.integer data.PaLatency), ("Status0", Value.integer data.Status0),
    ("Status1", Value.integer data.Status1), ("Status2", Value.integer data.Status2),
    ("Status3", Value.integer data.Status3), ("Status4", Value.integer data.Status4)]

/-- A `TEXT` cell as a value. -/
def textCell (cell : Option String) : Value :=
  match cell with
  | some s => Value.text s
  | none => Value.null

/-- A `REAL` cell as a value. -/
def realCell (cell : Option ℚ) : Value :=
  match cell with
  | some q => Value.real q
  | none => Value.null

/-- An `INTEGER` cell as a value. -/
def integerCell (cell : Option Int) : Value :=
  match cell with
  | some n => Value.integer n
  | none => Value.null

/-- A `DATETIME` cell as a value. -/
def datetimeCell (cell : Option Int) : Value :=
  match cell with
  | some t => Value.datetime t
  | none => Value.null

/-- The cell of a row under the column of the given name, `none` when the table has no
such column. -/
def Row.column (r : Row) (name : String) : Option Value :=
  if name = "id" then some (Value.integer r.id)
  else if name = "timestamp" then some (datetimeCell r.timestamp)
  else if name = "sensor_id" then some (textCell r.sensor_id)
  else if name = "datetime" then some (textCell r.datetime)
  else if name = "geo" then some (textCell r.geo)
  else if name = "lat" then some (realCell r.lat)
  else if name = "lon" then some (realCell r.lon)
  else if name = "place" then some (textCell r.place)
  else if name = "version" then some (textCell r.version)
  else if name = "uptime" then some (integerCell r.uptime)
  else if name = "rssi" then some (integerCell r.rssi)
  else if name = "wlstate" then some (textCell r.wlstate)
  else if name = "ssid" then some (textCell r.ssid)
  else if name = "current_temp_f" then some (realCell r.current_temp_f)
  else if name = "current_humidity" then some (integerCell r.current_humidity)
  else if name = "current_dewpoint_f" then some (realCell r.current_dewpoint_f)
  else if name = "pressure" then some (realCell r.pressure)
  else if name = "gas_680" then some (realCell r.gas_680)
  else if name = "pm25_aqi" then some (integerCell r.pm25_aqi)
  else if name = "pm10_cf1" then some (realCell r.pm10_cf1)
  else if name = "pm25_cf1" then some (realCell r.pm25_cf1)
  else if name = "pm100_cf1" then some (realCell r.pm100_cf1)
  else if name = "pm10_atm" then some (realCell r.pm10_atm)
  else if name = "pm25_atm" then some (realCell r.pm25_atm)
  else if name = "pm100_atm" then some (realCell r.pm100_atm)
  else if name = "pm25_aqi_b" then some (integerCell r.pm25_aqi_b)
  else if name = "pm10_cf1_b" then some (realCell r.pm10_cf1_b)
  else if name = "pm25_cf1_b" then some (realCell r.pm25_cf1_b)
  else if name = "pm100_cf1_b" then some (realCell r.pm100_cf1_b)
  else if name = "pm10_atm_b" then some (realCell r.pm10_atm_b)
  else if name = "pm25_atm_b" then some (realCell r.pm25_atm_b)
  else if name = "pm100_atm_b" then some (realCell r.pm100_atm_b)
  else if name = "mem" then some (integerCell r.mem)
  else if name = "memfrag" then some (integerCell r.memfrag)
  else if name = "memfb" then some (integerCell r.memfb)
  else if name = "memcs" then some (integerCell r.memcs)
  else if name = "adc" then some (realCell r.adc)
  else if name = "httpsuccess" then some (integerCell r.httpsuccess)
  else if name = "httpsends" then some (integerCell r.httpsends)
  else if name = "pa_latency" then some (integerCell r.pa_latency)
  else if name = "status_0" then some (integerCell r.status_0)
  else if name = "status_1" then some (integerCell r.status_1)
  else if name = "status_2" then some (integerCell r.status_2)
  else if name = "status_3" then some (integerCell r.status_3)
  else if name = "status_4" then some (integerCell r.status_4)
  else none

/-- A column name and a field name correspond when they are the same up to case and
underscores (`sensor_id` and `SensorId`, `pm25_aqi_b` and `Pm25AqiB`): the name without
underscores, in lower case. -/
def nameKey (name : String) : List Char :=
  (name.data.filter (fun c => c ≠ '_')).map Char.toLower

/-! ## The text of the two queries -/

/-- The text `fmt.Sprintf("%d", hours)`: the decimal digits of the number, after a minus
sign when it is negative. -/
def sprintfD (hours : Int) : List Char :=
  match hours with
  | Int.ofNat n => Nat.toDigits 10 n
  | Int.negSucc n => '-' :: Nat.toDigits 10 (n + 1)

/-- The single quote, which delimits a text literal of SQL. -/
def quote : Char := Char.ofNat 39

/-- The text of the query of `GetRecentMeasurements` before the spliced number. -/
def recentQueryHead : String :=
    "\n" ++
    "\tSELECT \n" ++
    "\t\ttimestamp, sensor_id, current_temp_f, current_humidity, pressure, gas_680,\n" ++
    "\t\tpm25_aqi, pm25_cf1, pm100_cf1, pm25_aqi_b, pm25_cf1_b, pm100_cf1_b,\n" ++
    "\t\tmem, rssi, pa_latency\n" ++
    "\tFROM measurements \n" ++
    "\tWHERE timestamp >= datetime('now', '-"

/-- The text of the query of `GetRecentMeasurements` after the spliced number. -/
def recentQueryTail : String :=
    " hours')\n" ++
    "\tORDER BY timestamp ASC\n" ++
    "\t"

/-- The text of the query of `GetMeasurementStats` before the spliced number. -/
def statsQueryHead : String :=
    "\n" ++
    "\tSELECT \n" ++
    "\t\tCOUNT(*) as count,\n" ++
    "\t\tCOALESCE(AVG(current_temp_f), 0) as avg_temp,\n" ++
    "\t\tCOALESCE(AVG(current_humidity), 0) as avg_humidity,\n" ++
    "\t\tCOALESCE(AVG(pressure), 0) as avg_pressure,\n" ++
    "\t\tCOALESCE(AVG(pm25_aqi), 0) as avg_pm25_aqi,\n" ++
    "\t\tCOALESCE(AVG(pm25_cf1), 0) as avg_pm25_cf1,\n" ++
    "\t\tCOALESCE(AVG(pm100_cf1), 0) as avg_pm100_cf1,\n" ++
    "\t\tCOALESCE(MAX(pm25_aqi), 0) as max_pm25_aqi,\n" ++
    "\t\tCOALESCE(MIN(pm25_aqi), 0) as min_pm25_aqi,\n" ++
    "\t\tCOALESCE(MAX(current_temp_f), 0) as max_temp,\n" ++
    "\t\tCOALESCE(MIN(current_temp_f), 0) as min_temp\n" ++
    "\tFROM measurements \n" ++
    "\tWHERE timestamp >= datetime('now', '-"

/-- The text of the query of `GetMeasurementStats` after the spliced number. -/
def statsQueryTail : String :=
    " hours')\n" ++
    "\t"

/-- The variable `query` of `GetRecentMeasurements`. -/
def recentQuery (hours : Int) : String :=
  recentQueryHead ++ String.mk (sprintfD hours) ++ recentQueryTail

/-- The variable `query` of `GetMeasurementStats`. -/
def statsQuery (hours : Int) : String :=
  statsQueryHead ++ String.mk (sprintfD hours) ++ statsQueryTail

/-- The text of the time modifier that the query hands to `datetime`: what stands between
the quote that the head of the query opens last and the next quote. -/
def modifierText (hours : Int) (tail : String) : List Char :=
  '-' :: (sprintfD hours ++ tail.data).takeWhile (fun c => c ≠ quote)

end AirQuality

namespace AirQuality

/-! ## Lemmas on the fetch -/

theorem scanMeasurement_eq_some_iff (r : Row) (m : Measurement) :
    scanMeasurement r = some m ↔
      r.timestamp = some m.Timestamp ∧ r.sensor_id = some m.SensorID ∧
      r.current_temp_f = some m.Temperature ∧ r.current_humidity = some m.Humidity ∧
      r.pressure = some m.Pressure ∧ r.gas_680 = some m.Gas680 ∧
      r.pm25_aqi = some m.PM25AQI ∧ r.pm25_cf1 = some m.PM25CF1 ∧
      r.pm100_cf1 = some m.PM100CF1 ∧ r.pm25_aqi_b = some m.PM25AQIB ∧
      r.pm25_cf1_b = some m.PM25CF1B ∧ r.pm100_cf1_b = some m.PM100CF1B ∧
      r.mem = some m.Memory ∧ r.rssi = some m.RSSI ∧ r.pa_latency = some m.PaLatency := by
  rcases h0 : r.timestamp with _ | v0
  · simp [scanMeasurement, h0]
  rcases h1 : r.sensor_id with _ | v1
  · simp [scanMeasurement, h0, h1]
  rcases h2 : r.current_temp_f with _ | v2
  · simp [scanMeasurement, h0, h1, h2]
  rcases h3 : r.current_humidity with _ | v3
  · simp [scanMeasurement, h0, h1, h2, h3]
  rcases h4 : r.pressure with _ | v4
  · simp [scanMeasurement, h0, h1, h2, h3, h4]
  rcases h5 : r.gas_680 with _ | v5
  · simp [scanMeasurement, h0, h1, h2, h3, h4, h5]
  rcases h6 : r.pm25_aqi with _ | v6
  · simp [scanMeasurement, h0, h1, h2, h3, h4, h5, h6]
  rcases h7 : r.pm25_cf1 with _ | v7
  · simp [scanMeasurement, h0, h1, h2, h3, h4, h5, h6, h7]
  rcases h8 : r.pm100_cf1 with _ | v8
  · simp [scanMeasurement, h0, h1, h2, h3, h4, h5, h6, h7, h8]
  rcases h9 : r.pm25_aqi_b with _ | v9
  · simp [scanMeasurement, h0, h1, h2, h3, h4, h5, h6, h7, h8, h9]
  rcases h10 : r.pm25_cf1_b with _ | v10
  · simp [scanMeasurement, h0, h1, h2, h3, h4, h5, h6, h7, h8, h9, h10]
  rcases h11 : r.pm100_cf1_b with _ | v11
  · simp [scanMeasurement, h0, h1, h2, h3, h4, h5, h6, h7, h8, h9, h10, h11]
  rcases h12 : r.mem with _ | v12
  · simp [scanMeasurement, h0, h1, h2, h3, h4, h5, h6, h7, h8, h9, h10, h11, h12]
  rcases h13 : r.rssi with _ | v13
  · simp [scanMeasurement, h0, h1, h2, h3, h4, h5, h6, h7, h8, h9, h10, h11, h12, h13]
  rcases h14 : r.pa_latency with _ | v14
  · simp [scanMeasurement, h0, h1, h2, h3, h4, h5, h6, h7, h8, h9, h10, h11, h12, h13, h14]
  cases m
  simp [scanMeasurement, h0, h1, h2, h3, h4, h5, h6, h7, h8, h9, h10, h11, h12, h13, h14]

theorem scanLoop_eq (rows : List Row) (acc : List Measurement) :
    scanLoop rows acc = acc ++ rows.filterMap scanMeasurement := by
  induction rows generalizing acc with
  | nil => simp [scanLoop]
  | cons r rest ih =>
    cases h : scanMeasurement r with
    | none => simp [scanLoop, h, ih]
    | some m => simp [scanLoop, h, ih]

theorem GetRecentMeasurements_open (d : Database) (now hours : Int) (h : d.closed = false) :
    GetRecentMeasurements d now true hours =
      Except.ok ((selectRecent d.table now hours).filterMap scanMeasurement) := by
  simp [GetRecentMeasurements, execError, h, scanLoop_eq]

theorem GetRecentMeasurements_ok (d : Database) (now hours : Int) (ok : Bool)
    (ms : List Measurement) (h : GetRecentMeasurements d now ok hours = Except.ok ms) :
    ms = (selectRecent d.table now hours).filterMap scanMeasurement := by
  unfold GetRecentMeasurements at h
  cases he : execError d ok with
  | some e => simp [he] at h
  | none =>
    simp only [he, scanLoop_eq, List.nil_append] at h
    exact (Except.ok.inj h).symm

theorem windowStart_in_calendar (now hours : Int) (h : 0 ≤ hours)
    (hcal : windowInCalendar now hours = true) :
    windowStart now hours = some (now - hours * 3600) := by
  have hn : ¬ hours < 0 := not_lt.mpr h
  simp [windowStart, hn, hcal]

theorem windowStart_eq_some (now hours start : Int)
    (h : windowStart now hours = some start) : start = now - hours * 3600 := by
  unfold windowStart at h
  split at h
  · exact absurd h (by simp)
  · split at h
    · exact (Option.some.inj h).symm
    · exact absurd h (by simp)

theorem inWindow_windowStart (now hours : Int) (h : 0 ≤ hours)
    (hcal : windowInCalendar now hours = true) (r : Row) :
    inWindow (windowStart now hours) r = notBefore (now - hours * 3600) r := by
  rw [windowStart_in_calendar now hours h hcal]
  cases ht : r.timestamp <;> simp [inWindow, notBefore, ht]

theorem notBefore_of_inWindow (now hours : Int) (r : Row)
    (h : inWindow (windowStart now hours) r = true) :
    notBefore (now - hours * 3600) r = true := by
  cases hs : windowStart now hours with
  | none =>
    rw [hs] at h
    cases ht : r.timestamp <;> simp [inWindow, ht] at h
  | some start =>
    have hstart := windowStart_eq_some now hours start hs
    rw [hs, hstart] at h
    cases ht : r.timestamp with
    | none => simp [inWindow, ht] at h
    | some t => simpa [inWindow, notBefore, ht] using h

/-- A window whose start is no date of the calendar selects no row. -/
theorem selectWindow_outside_calendar (t : Table) (now hours : Int)
    (hcal : windowInCalendar now hours = false) : selectWindow t now hours = [] := by
  unfold selectWindow
  refine List.filter_eq_nil_iff.2 (fun r _ => ?_)
  have hs : windowStart now hours = none := by
    unfold windowStart
    split
    · rfl
    · simp [hcal]
  rw [hs]
  cases ht : r.timestamp <;> simp [inWindow, ht]

theorem selectWindow_eq_filter (t : Table) (now hours : Int) (h : 0 ≤ hours)
    (hcal : windowInCalendar now hours = true) :
    selectWindow t now hours = t.rows.filter (notBefore (now - hours * 3600)) := by
  unfold selectWindow
  exact List.filter_congr (fun r _ => inWindow_windowStart now hours h hcal r)

theorem selectRecent_perm (t : Table) (now hours : Int) :
    (selectRecent t now hours).Perm (selectWindow t now hours) :=
  List.perm_insertionSort tsLE _

theorem selectRecent_sorted (t : Table) (now hours : Int) :
    (selectRecent t now hours).Sorted tsLE :=
  List.sorted_insertionSort tsLE _

theorem scanned_ascending (rows : List Row) (h : rows.Sorted tsLE) :
    (rows.filterMap scanMeasurement).Pairwise (fun a b => a.Timestamp ≤ b.Timestamp) := by
  refine List.Pairwise.filterMap scanMeasurement ?_ h
  intro a b hab m hm m' hm'
  have ha := ((scanMeasurement_eq_some_iff a m).1 hm).1
  have hb := ((scanMeasurement_eq_some_iff b m').1 hm').1
  have : a.sortKey ≤ b.sortKey := hab
  simpa [Row.sortKey, ha, hb] using this

theorem map_scan_of_decodable (rows : List Row)
    (h : ∀ r ∈ rows, scanMeasurement r ≠ none) :
    rows.map scanMeasurement = (rows.filterMap scanMeasurement).map some := by
  induction rows with
  | nil => rfl
  | cons r rest ih =>
    have hr := h r (List.mem_cons_self r rest)
    have hrest := ih (fun x hx => h x (List.mem_cons_of_mem r hx))
    cases hs : scanMeasurement r with
    | none => exact absurd hs hr
    | some m => simp [List.filterMap_cons, hs, hrest]

/-! ## C1: the rows the fetch returns -/

/-- C1, as worded, fails at four inputs. With rows appended at now-30h, now-25h and
now-2h the fetch with a window of 48 hours returns three summaries, the row at now-30h
included, not two. A row whose timestamp is later than `now` is returned although it is
outside the closed window. A row of the window with a `NULL` in a selected column is not
returned. With a window of 60000000 hours, whose start lies before the calendar of
SQLite, no row is returned although all three lie in the closed window. -/
theorem recent_closed_window_counterexample :
    (GetRecentMeasurements threeRowStore (30 * 3600) true 48).map
        (fun ms => ms.map Measurement.Timestamp)
      = Except.ok [30 * 3600 - 30 * 3600, 30 * 3600 - 25 * 3600, 30 * 3600 - 2 * 3600] ∧
    ¬ ReturnsClosedWindow laterStore 0 24 ∧
    ¬ ReturnsClosedWindow nullTempStore 0 24 ∧
    GetRecentMeasurements threeRowStore (30 * 3600) true 60000000 = Except.ok [] ∧
    ¬ ReturnsClosedWindow threeRowStore (30 * 3600) 60000000 := by
  refine ⟨rfl, ?_, ?_, rfl, ?_⟩
  · rintro ⟨ms, hms, hperm⟩
    have h1 : ms = (selectRecent laterStore.table 0 24).filterMap scanMeasurement :=
      GetRecentMeasurements_ok _ _ _ _ _ hms
    have h2 : ms.length = 1 := by rw [h1]; rfl
    have h3 := hperm.length_eq
    have h4 : (laterStore.table.rows.filter (inClosedWindow 0 24)).length = 0 := by decide
    simp [h2, h4] at h3
  · rintro ⟨ms, hms, hperm⟩
    have h1 : ms = (selectRecent nullTempStore.table 0 24).filterMap scanMeasurement :=
      GetRecentMeasurements_ok _ _ _ _ _ hms
    have h2 : ms.length = 0 := by rw [h1]; rfl
    have h3 := hperm.length_eq
    have h4 : (nullTempStore.table.rows.filter (inClosedWindow 0 24)).length = 1 := by decide
    simp [h2, h4] at h3
  · rintro ⟨ms, hms, hperm⟩
    have h1 : ms
        = (selectRecent threeRowStore.table (30 * 3600) 60000000).filterMap
          scanMeasurement :=
      GetRecentMeasurements_ok _ _ _ _ _ hms
    have h2 : ms.length = 0 := by rw [h1]; rfl
    have h3 := hperm.length_eq
    have h4 : (threeRowStore.table.rows.filter
        (inClosedWindow (30 * 3600) 60000000)).length = 3 := by decide
    rw [List.length_map, List.length_map, h2, h4] at h3
    exact absurd h3 (by decide)

/-- C1, amended. On an open store whose engine runs the query, for every table content,
every instant `now` and every positive `hours` for which `now - hours` is a date of the
calendar of SQLite, `GetRecentMeasurements` returns no error and exactly the summaries of
the stored rows whose timestamp is at or after `now - hours` and whose selected columns
hold no `NULL`, each such row once and no other row. When no stored timestamp is later
than `now` and the rows of the closed window all decode, these are the rows of the closed
window `now - hours <= t <= now`. -/
theorem GetRecentMeasurements_window (d : Database) (now hours : Int)
    (hopen : d.closed = false) (hpos : 0 < hours)
    (hcal : windowInCalendar now hours = true) :
    ∃ ms, GetRecentMeasurements d now true hours = Except.ok ms ∧
      ms.Perm ((d.table.rows.filter (notBefore (now - hours * 3600))).filterMap
        scanMeasurement) ∧
      ((∀ r ∈ d.table.rows, ∀ t, r.timestamp = some t → t ≤ now) →
        (∀ r ∈ d.table.rows, inClosedWindow now hours r = true →
          scanMeasurement r ≠ none) →
        ReturnsClosedWindow d now hours) := by
  have hperm : ((selectRecent d.table now hours).filterMap scanMeasurement).Perm
      ((d.table.rows.filter (notBefore (now - hours * 3600))).filterMap scanMeasurement) := by
    rw [← selectWindow_eq_filter d.table now hours hpos.le hcal]
    exact (selectRecent_perm d.table now hours).filterMap scanMeasurement
  refine ⟨_, GetRecentMeasurements_open d now hours hopen, hperm, ?_⟩
  intro hpast hdec
  refine ⟨_, GetRecentMeasurements_open d now hours hopen, ?_⟩
  have hfilter : d.table.rows.filter (inClosedWindow now hours)
      = d.table.rows.filter (notBefore (now - hours * 3600)) := by
    refine List.filter_congr (fun r hr => ?_)
    cases ht : r.timestamp with
    | none => simp [inClosedWindow, notBefore, ht]
    | some t =>
      have := hpast r hr t ht
      simp [inClosedWindow, notBefore, ht, this]
  have hall : ∀ r ∈ d.table.rows.filter (inClosedWindow now hours),
      scanMeasurement r ≠ none := by
    intro r hr
    rw [List.mem_filter] at hr
    exact hdec r hr.1 hr.2
  rw [map_scan_of_decodable _ hall, hfilter]
  exact hperm.map some

/-- The amended C1 at the store of the specification's example, rows at now-30h, now-25h
and now-2h, with a window of 24 hours. -/
theorem GetRecentMeasurements_window_witness :
    ∃ ms, GetRecentMeasurements threeRowStore (30 * 3600) true 24 = Except.ok ms ∧
      ms.Perm ((threeRowStore.table.rows.filter
        (notBefore (30 * 3600 - 24 * 3600))).filterMap scanMeasurement) ∧
      ((∀ r ∈ threeRowStore.table.rows, ∀ t, r.timestamp = some t → t ≤ 30 * 3600) →
        (∀ r ∈ threeRowStore.table.rows, inClosedWindow (30 * 3600) 24 r = true →
          scanMeasurement r ≠ none) →
        ReturnsClosedWindow threeRowStore (30 * 3600) 24) :=
  GetRecentMeasurements_window threeRowStore (30 * 3600) 24 rfl (by decide) rfl

/-! ## C2: the order of the fetch -/

/-- C2. For every table content, instant and `hours`, the sequence that
`GetRecentMeasurements` returns is ascending by timestamp: for positions `i < j` of the
result, `Timestamp[i] <= Timestamp[j]`; and on an open store whose engine runs the query
the call does return a sequence. -/
theorem GetRecentMeasurements_ascending (d : Database) (now : Int) (ok : Bool)
    (hours : Int) :
    (d.closed = false → ∃ ms, GetRecentMeasurements d now true hours = Except.ok ms) ∧
    ∀ ms, GetRecentMeasurements d now ok hours = Except.ok ms →
      ∀ i j : Fin ms.length, i < j → (ms.get i).Timestamp ≤ (ms.get j).Timestamp := by
  refine ⟨fun hopen => ⟨_, GetRecentMeasurements_open d now hours hopen⟩, ?_⟩
  intro ms hms i j hij
  have hsorted : ms.Pairwise (fun a b => a.Timestamp ≤ b.Timestamp) := by
    rw [GetRecentMeasurements_ok d now hours ok ms hms]
    exact scanned_ascending _ (selectRecent_sorted d.table now hours)
  exact List.pairwise_iff_get.1 hsorted i j hij

/-- C2 at the store of the specification's example, with a window of 48 hours. -/
theorem GetRecentMeasurements_ascending_witness :
    (threeRowStore.closed = false →
      ∃ ms, GetRecentMeasurements threeRowStore (30 * 3600) true 48 = Except.ok ms) ∧
    ∀ ms, GetRecentMeasurements threeRowStore (30 * 3600) true 48 = Except.ok ms →
      ∀ i j : Fin ms.length, i < j → (ms.get i).Timestamp ≤ (ms.get j).Timestamp :=
  GetRecentMeasurements_ascending threeRowStore (30 * 3600) true 48

/-! ## Lemmas on the append path and on runs -/

theorem StoreMeasurement_ok (d : Database) (now : Int) (ok : Bool) (s : AirQualityData)
    (h : (StoreMeasurement d now ok s).2 = none) :
    d.closed = false ∧
    StoreMeasurement d now ok s =
      ({ d with table :=
          { rows := d.table.rows ++ [insertedRow (nextRowid d.table) now s]
            seq := nextRowid d.table } }, none) := by
  unfold StoreMeasurement at h ⊢
  cases he : execError d ok with
  | some e => simp [he] at h
  | none =>
    refine ⟨?_, by simp⟩
    cases hc : d.closed with
    | false => rfl
    | true => simp [execError, hc] at he

theorem StoreMeasurement_failed (d : Database) (now : Int) (ok : Bool) (s : AirQualityData)
    (h : (StoreMeasurement d now ok s).2 ≠ none) :
    (StoreMeasurement d now ok s).1 = d := by
  unfold StoreMeasurement at h ⊢
  cases he : execError d ok with
  | some e => simp
  | none => simp [he] at h

theorem StoreMeasurement_open (d : Database) (now : Int) (s : AirQualityData)
    (h : d.closed = false) :
    StoreMeasurement d now true s =
      ({ d with table :=
          { rows := d.table.rows ++ [insertedRow (nextRowid d.table) now s]
            seq := nextRowid d.table } }, none) := by
  simp [StoreMeasurement, execError, h]

theorem scanMeasurement_insertedRow (id now : Int) (s : AirQualityData) :
    scanMeasurement (insertedRow id now s) = some (summaryOf now s) := rfl

theorem step_rows (d : Database) (c : Call) :
    (step d c).table.rows = d.table.rows ∨
    ∃ now ok s, c = Call.store now ok s ∧
      (step d c).table.rows = d.table.rows ++ [insertedRow (nextRowid d.table) now s] := by
  cases c with
  | store now ok s =>
    by_cases h : (StoreMeasurement d now ok s).2 = none
    · right
      refine ⟨now, ok, s, rfl, ?_⟩
      simp [step, (StoreMeasurement_ok d now ok s h).2]
    · left
      simp [step, StoreMeasurement_failed d now ok s h]
  | recent now ok hours => exact Or.inl rfl
  | stats now ok hours => exact Or.inl rfl
  | close => exact Or.inl rfl

theorem run_cons (d : Database) (c : Call) (cs : List Call) :
    run d (c :: cs) = run (step d c) cs := rfl

/-- The rows after a run are the rows before it followed by the rows the run appended,
and the timestamps of those are clock readings of its `StoreMeasurement` calls, in
order. -/
theorem run_rows (d : Database) (calls : List Call) :
    ∃ app, (run d calls).table.rows = d.table.rows ++ app ∧
      (app.map Row.timestamp).Sublist ((insertTimes calls).map some) := by
  induction calls generalizing d with
  | nil => exact ⟨[], by simp [run], by simp [insertTimes]⟩
  | cons c cs ih =>
    obtain ⟨app, happ, hsub⟩ := ih (step d c)
    rcases step_rows d c with h | ⟨now, ok, s, hc, h⟩
    · refine ⟨app, by rw [run_cons, happ, h], ?_⟩
      cases c with
      | store now ok s => exact hsub.trans (by simp [insertTimes])
      | recent now ok hours => simpa [insertTimes] using hsub
      | stats now ok hours => simpa [insertTimes] using hsub
      | close => simpa [insertTimes] using hsub
    · refine ⟨insertedRow (nextRowid d.table) now s :: app, ?_, ?_⟩
      · rw [run_cons, happ, h]; simp
      · subst hc
        simpa [insertTimes, insertedRow] using hsub

theorem inWindow_insertedRow (id now hours : Int) (s : AirQualityData) (h : 0 ≤ hours)
    (hcal : windowInCalendar now hours = true) :
    inWindow (windowStart now hours) (insertedRow id now s) = true := by
  have : 0 ≤ hours * 3600 := by positivity
  rw [windowStart_in_calendar now hours h hcal]
  simp [inWindow, insertedRow, this]

/-- The fetch after an append returns the summary of the new row and the summaries it
returned before the append. -/
theorem recent_after_append (t : Table) (id now hours : Int) (s : AirQualityData)
    (h : 0 ≤ hours) (hcal : windowInCalendar now hours = true) :
    ((selectRecent { rows := t.rows ++ [insertedRow id now s], seq := id } now
        hours).filterMap scanMeasurement).Perm
      (summaryOf now s :: (selectRecent t now hours).filterMap scanMeasurement) := by
  have h1 : (selectRecent { rows := t.rows ++ [insertedRow id now s], seq := id } now
      hours).Perm (selectWindow t now hours ++ [insertedRow id now s]) := by
    refine (selectRecent_perm _ now hours).trans ?_
    simp [selectWindow, List.filter_append, inWindow_insertedRow id now hours s h hcal]
  have h2 := h1.filterMap scanMeasurement
  rw [List.filterMap_append] at h2
  have h3 : [insertedRow id now s].filterMap scanMeasurement = [summaryOf now s] := rfl
  rw [h3] at h2
  refine h2.trans ((List.perm_append_singleton _ _).trans (List.Perm.cons _ ?_))
  exact ((selectRecent_perm t now hours).filterMap scanMeasurement).symm

/-! ## C3: an appended snapshot is visible -/

/-- C3, as worded, fails in two ways. When the clock of the engine steps back: after an
append at the instant 3600 an append at the instant 0 succeeds, and the fetch returns the
new summary with the timestamp 0, earlier than the timestamp 3600 of the row appended
before. And for a window of 60000000 hours, whose start lies before the calendar of
SQLite: an append to a fresh store succeeds, and the fetch returns the empty sequence
before it and after it, not one summary more. -/
theorem append_timestamp_counterexample :
    (StoreMeasurement laterStore 0 true sampleReading).2 = none ∧
    GetRecentMeasurements (StoreMeasurement laterStore 0 true sampleReading).1 0 true 24
      = Except.ok [summaryOf 0 sampleReading, summaryOf 3600 sampleReading] ∧
    laterStore.table.rows.map Row.timestamp = [some 3600] ∧
    (StoreMeasurement freshDatabase 0 true sampleReading).2 = none ∧
    GetRecentMeasurements freshDatabase 0 true 60000000 = Except.ok [] ∧
    GetRecentMeasurements (StoreMeasurement freshDatabase 0 true sampleReading).1 0 true
      60000000 = Except.ok [] ∧
    ¬ (∀ r ∈ laterStore.table.rows, ∀ t, r.timestamp = some t →
        t ≤ (summaryOf 0 sampleReading).Timestamp) := by
  refine ⟨rfl, rfl, rfl, rfl, rfl, rfl, ?_⟩
  intro h
  have := h (insertedRow 1 3600 sampleReading) (by simp [laterStore, StoreMeasurement,
    execError, freshDatabase, createTables, nextRowid, maxRowid]) 3600 rfl
  simp [summaryOf] at this

/-- C3, amended. For every store state (the state after any calls on any store), every
snapshot `s` and every `hours >= 1` for which `now - hours` is a date of the calendar of
SQLite: when `StoreMeasurement(s)` returns nil, the fetch at the same instant returned a
sequence before the append and returns one after it that holds exactly one summary more;
the fields of that summary are the projection of `s` and its timestamp is the instant of
the append, which is later than or equal to the timestamp of every row appended before
provided the clock readings of the appends never decreased. -/
theorem append_visible (d0 : Database) (calls : List Call) (now : Int) (ok : Bool)
    (s : AirQualityData) (hours : Int)
    (hstore : (StoreMeasurement (run d0 calls) now ok s).2 = none) (hh : 1 ≤ hours)
    (hcal : windowInCalendar now hours = true) :
    ∃ before after m,
      GetRecentMeasurements (run d0 calls) now true hours = Except.ok before ∧
      GetRecentMeasurements (StoreMeasurement (run d0 calls) now ok s).1 now true hours
        = Except.ok after ∧
      after.Perm (m :: before) ∧
      m.SensorID = s.SensorId ∧ m.Temperature = s.CurrentTempF ∧
      m.Humidity = s.CurrentHumidity ∧ m.Pressure = s.Pressure ∧ m.Gas680 = s.Gas680 ∧
      m.PM25AQI = s.Pm25Aqi ∧ m.PM25CF1 = s.Pm25Cf1 ∧ m.PM100CF1 = s.Pm100Cf1 ∧
      m.PM25AQIB = s.Pm25AqiB ∧ m.PM25CF1B = s.Pm25Cf1B ∧ m.PM100CF1B = s.Pm100Cf1B ∧
      m.Memory = s.Mem ∧ m.RSSI = s.Rssi ∧ m.PaLatency = s.PaLatency ∧
      m.Timestamp = now ∧
      ((insertTimes calls ++ [now]).Sorted (fun a b => a ≤ b) →
        ∀ r ∈ (run d0 calls).table.rows.drop d0.table.rows.length,
          ∃ t, r.timestamp = some t ∧ t ≤ m.Timestamp) := by
  obtain ⟨hopen, hst⟩ := StoreMeasurement_ok (run d0 calls) now ok s hstore
  have hopen2 : (StoreMeasurement (run d0 calls) now ok s).1.closed = false := by
    rw [hst]; exact hopen
  refine ⟨_, _, summaryOf now s, GetRecentMeasurements_open _ now hours hopen,
    GetRecentMeasurements_open _ now hours hopen2, ?_, rfl, rfl, rfl, rfl, rfl, rfl, rfl,
    rfl, rfl, rfl, rfl, rfl, rfl, rfl, rfl, ?_⟩
  · rw [hst]
    exact recent_after_append (run d0 calls).table _ now hours s (by omega) hcal
  · intro hclock r hr
    obtain ⟨app, happ, hsub⟩ := run_rows d0 calls
    rw [happ, List.drop_left] at hr
    have hmem : r.timestamp ∈ (insertTimes calls).map some :=
      hsub.subset (List.mem_map_of_mem Row.timestamp hr)
    obtain ⟨t, ht, hrt⟩ := List.mem_map.1 hmem
    refine ⟨t, hrt.symm, ?_⟩
    have hp := List.pairwise_append.1 hclock
    exact hp.2.2 t ht now (List.mem_singleton_self now)

/-- The amended C3 at a store after one append, for a second append an hour later. -/
theorem append_visible_witness :
    ∃ before after m,
      GetRecentMeasurements (run freshDatabase [Call.store 0 true sampleReading]) 3600 true
        24 = Except.ok before ∧
      GetRecentMeasurements
        (StoreMeasurement (run freshDatabase [Call.store 0 true sampleReading]) 3600 true
          sampleReading).1 3600 true 24 = Except.ok after ∧
      after.Perm (m :: before) ∧
      m.SensorID = sampleReading.SensorId ∧ m.Temperature = sampleReading.CurrentTempF ∧
      m.Humidity = sampleReading.CurrentHumidity ∧ m.Pressure = sampleReading.Pressure ∧
      m.Gas680 = sampleReading.Gas680 ∧
      m.PM25AQI = sampleReading.Pm25Aqi ∧ m.PM25CF1 = sampleReading.Pm25Cf1 ∧
      m.PM100CF1 = sampleReading.Pm100Cf1 ∧
      m.PM25AQIB = sampleReading.Pm25AqiB ∧ m.PM25CF1B = sampleReading.Pm25Cf1B ∧
      m.PM100CF1B = sampleReading.Pm100Cf1B ∧
      m.Memory = sampleReading.Mem ∧ m.RSSI = sampleReading.Rssi ∧
      m.PaLatency = sampleReading.PaLatency ∧
      m.Timestamp = 3600 ∧
      ((insertTimes [Call.store 0 true sampleReading] ++ [3600]).Sorted (fun a b => a ≤ b) →
        ∀ r ∈ (run freshDatabase [Call.store 0 true sampleReading]).table.rows.drop
            freshDatabase.table.rows.length,
          ∃ t, r.timestamp = some t ∧ t ≤ m.Timestamp) :=
  append_visible freshDatabase [Call.store 0 true sampleReading] 3600 true sampleReading 24
    rfl (by decide) rfl

/-! ## Lemmas on the aggregates -/

theorem GetMeasurementStats_open (d : Database) (now hours : Int) (h : d.closed = false) :
    GetMeasurementStats d now true hours = Except.ok
      { Count := ((selectWindow d.table now hours).length : Int)
        AvgTemp := coalesce (sqlAvg ((selectWindow d.table now hours).map Row.current_temp_f))
        AvgHumidity :=
          coalesce (sqlAvg (asReal ((selectWindow d.table now hours).map Row.current_humidity)))
        AvgPressure := coalesce (sqlAvg ((selectWindow d.table now hours).map Row.pressure))
        AvgPM25AQI :=
          coalesce (sqlAvg (asReal ((selectWindow d.table now hours).map Row.pm25_aqi)))
        AvgPM25CF1 := coalesce (sqlAvg ((selectWindow d.table now hours).map Row.pm25_cf1))
        AvgPM100CF1 := coalesce (sqlAvg ((selectWindow d.table now hours).map Row.pm100_cf1))
        MaxPM25AQI := coalesce (sqlMax ((selectWindow d.table now hours).map Row.pm25_aqi))
        MinPM25AQI := coalesce (sqlMin ((selectWindow d.table now hours).map Row.pm25_aqi))
        MaxTemp := coalesce (sqlMax ((selectWindow d.table now hours).map Row.current_temp_f))
        MinTemp :=
          coalesce (sqlMin ((selectWindow d.table now hours).map Row.current_temp_f)) } := by
  simp [GetMeasurementStats, execError, h]

theorem reduceOption_map_eq_filterMap {α β : Type} (f : α → Option β) (l : List α) :
    (l.map f).reduceOption = l.filterMap f := by
  simp [List.reduceOption, List.filterMap_map]

theorem reduceOption_asReal (col : List (Option Int)) :
    (asReal col).reduceOption = asNumbers col.reduceOption := by
  induction col with
  | nil => rfl
  | cons o rest ih =>
    cases o with
    | none =>
      have h1 : asReal (none :: rest) = none :: asReal rest := rfl
      rw [h1, List.reduceOption_cons_of_none, List.reduceOption_cons_of_none, ih]
    | some n =>
      have h1 : asReal (some n :: rest) = some (n : ℚ) :: asReal rest := rfl
      rw [h1, List.reduceOption_cons_of_some, List.reduceOption_cons_of_some, ih]
      rfl

theorem coalesce_sqlAvg (col : List (Option ℚ)) :
    IsMeanOrZero col.reduceOption (coalesce (sqlAvg col)) := by
  unfold sqlAvg
  cases hvs : col.reduceOption with
  | nil => exact ⟨fun _ => rfl, fun h => absurd rfl h⟩
  | cons v vs =>
    refine ⟨fun h => by simp at h, fun _ => ?_⟩
    have hlen : ((v :: vs).length : ℚ) ≠ 0 := by
      simp only [List.length_cons]; positivity
    simp only [coalesce]
    exact div_mul_cancel₀ _ hlen

theorem foldl_max_spec {α : Type} [LinearOrder α] (vs : List α) (v : α) :
    vs.foldl max v ∈ v :: vs ∧ ∀ x ∈ v :: vs, x ≤ vs.foldl max v := by
  induction vs generalizing v with
  | nil => simp
  | cons a rest ih =>
    obtain ⟨hmem, hle⟩ := ih (max v a)
    simp only [List.foldl_cons]
    constructor
    · rcases List.mem_cons.1 hmem with h | h
      · rw [h]
        rcases max_choice v a with hc | hc <;> simp [hc]
      · simp [h]
    · intro x hx
      have hmax := hle (max v a) (List.mem_cons_self _ _)
      rcases List.mem_cons.1 hx with h | h
      · rw [h]; exact le_trans (le_max_left v a) hmax
      · rcases List.mem_cons.1 h with h' | h'
        · rw [h']; exact le_trans (le_max_right v a) hmax
        · exact hle x (List.mem_cons_of_mem _ h')

theorem foldl_min_spec {α : Type} [LinearOrder α] (vs : List α) (v : α) :
    vs.foldl min v ∈ v :: vs ∧ ∀ x ∈ v :: vs, vs.foldl min v ≤ x := by
  induction vs generalizing v with
  | nil => simp
  | cons a rest ih =>
    obtain ⟨hmem, hle⟩ := ih (min v a)
    simp only [List.foldl_cons]
    constructor
    · rcases List.mem_cons.1 hmem with h | h
      · rw [h]
        rcases min_choice v a with hc | hc <;> simp [hc]
      · simp [h]
    · intro x hx
      have hmin := hle (min v a) (List.mem_cons_self _ _)
      rcases List.mem_cons.1 hx with h | h
      · rw [h]; exact le_trans hmin (min_le_left v a)
      · rcases List.mem_cons.1 h with h' | h'
        · rw [h']; exact le_trans hmin (min_le_right v a)
        · exact hle x (List.mem_cons_of_mem _ h')

theorem coalesce_sqlMax {α : Type} [LinearOrder α] [Zero α] (col : List (Option α)) :
    IsMaxOrZero col.reduceOption (coalesce (sqlMax col)) := by
  unfold sqlMax
  cases hvs : col.reduceOption with
  | nil => exact ⟨fun _ => rfl, fun h => absurd rfl h⟩
  | cons v vs => exact ⟨fun h => by simp at h, fun _ => foldl_max_spec vs v⟩

theorem coalesce_sqlMin {α : Type} [LinearOrder α] [Zero α] (col : List (Option α)) :
    IsMinOrZero col.reduceOption (coalesce (sqlMin col)) := by
  unfold sqlMin
  cases hvs : col.reduceOption with
  | nil => exact ⟨fun _ => rfl, fun h => absurd rfl h⟩
  | cons v vs => exact ⟨fun h => by simp at h, fun _ => foldl_min_spec vs v⟩

theorem avg_column (rows : List Row) (f : Row → Option ℚ) :
    IsMeanOrZero (rows.filterMap f) (coalesce (sqlAvg (rows.map f))) := by
  have h := coalesce_sqlAvg (rows.map f)
  rwa [reduceOption_map_eq_filterMap] at h

theorem avg_int_column (rows : List Row) (f : Row → Option Int) :
    IsMeanOrZero (asNumbers (rows.filterMap f)) (coalesce (sqlAvg (asReal (rows.map f)))) := by
  have h := coalesce_sqlAvg (asReal (rows.map f))
  rwa [reduceOption_asReal, reduceOption_map_eq_filterMap] at h

theorem max_column {α : Type} [LinearOrder α] [Zero α] (rows : List Row)
    (f : Row → Option α) :
    IsMaxOrZero (rows.filterMap f) (coalesce (sqlMax (rows.map f))) := by
  have h := coalesce_sqlMax (rows.map f)
  rwa [reduceOption_map_eq_filterMap] at h

theorem min_column {α : Type} [LinearOrder α] [Zero α] (rows : List Row)
    (f : Row → Option α) :
    IsMinOrZero (rows.filterMap f) (coalesce (sqlMin (rows.map f))) := by
  have h := coalesce_sqlMin (rows.map f)
  rwa [reduceOption_map_eq_filterMap] at h

/-! ## C5: the aggregates of the window -/

/-- C5. On an open store whose engine runs the query, for every table content and every
`hours`, `GetMeasurementStats` returns no error, and each aggregate is taken over exactly
the values that are not `NULL` in its column among the rows of the window: the six
averages are the means, `MaxPM25AQI`, `MinPM25AQI`, `MaxTemp` and `MinTemp` the largest
and smallest value, and an aggregate over no value (no row in the window, or only `NULL`s
in the column) is 0. -/
theorem GetMeasurementStats_aggregates (d : Database) (now hours : Int)
    (hopen : d.closed = false) :
    ∃ st, GetMeasurementStats d now true hours = Except.ok st ∧
      IsMeanOrZero ((selectWindow d.table now hours).filterMap Row.current_temp_f)
        st.AvgTemp ∧
      IsMeanOrZero (asNumbers ((selectWindow d.table now hours).filterMap
        Row.current_humidity)) st.AvgHumidity ∧
      IsMeanOrZero ((selectWindow d.table now hours).filterMap Row.pressure)
        st.AvgPressure ∧
      IsMeanOrZero (asNumbers ((selectWindow d.table now hours).filterMap Row.pm25_aqi))
        st.AvgPM25AQI ∧
      IsMeanOrZero ((selectWindow d.table now hours).filterMap Row.pm25_cf1)
        st.AvgPM25CF1 ∧
      IsMeanOrZero ((selectWindow d.table now hours).filterMap Row.pm100_cf1)
        st.AvgPM100CF1 ∧
      IsMaxOrZero ((selectWindow d.table now hours).filterMap Row.pm25_aqi)
        st.MaxPM25AQI ∧
      IsMinOrZero ((selectWindow d.table now hours).filterMap Row.pm25_aqi)
        st.MinPM25AQI ∧
      IsMaxOrZero ((selectWindow d.table now hours).filterMap Row.current_temp_f)
        st.MaxTemp ∧
      IsMinOrZero ((selectWindow d.table now hours).filterMap Row.current_temp_f)
        st.MinTemp := by
  exact ⟨_, GetMeasurementStats_open d now hours hopen, avg_column _ _, avg_int_column _ _,
    avg_column _ _, avg_int_column _ _, avg_column _ _, avg_column _ _, max_column _ _,
    min_column _ _, max_column _ _, min_column _ _⟩

/-- The witness of C5: the aggregates of a store whose only row holds `NULL` as its
temperature. -/
theorem GetMeasurementStats_aggregates_witness :
    ∃ st, GetMeasurementStats nullTempStore 0 true 24 = Except.ok st ∧
      IsMeanOrZero ((selectWindow nullTempStore.table 0 24).filterMap Row.current_temp_f)
        st.AvgTemp ∧
      IsMeanOrZero (asNumbers ((selectWindow nullTempStore.table 0 24).filterMap
        Row.current_humidity)) st.AvgHumidity ∧
      IsMeanOrZero ((selectWindow nullTempStore.table 0 24).filterMap Row.pressure)
        st.AvgPressure ∧
      IsMeanOrZero (asNumbers ((selectWindow nullTempStore.table 0 24).filterMap
        Row.pm25_aqi)) st.AvgPM25AQI ∧
      IsMeanOrZero ((selectWindow nullTempStore.table 0 24).filterMap Row.pm25_cf1)
        st.AvgPM25CF1 ∧
      IsMeanOrZero ((selectWindow nullTempStore.table 0 24).filterMap Row.pm100_cf1)
        st.AvgPM100CF1 ∧
      IsMaxOrZero ((selectWindow nullTempStore.table 0 24).filterMap Row.pm25_aqi)
        st.MaxPM25AQI ∧
      IsMinOrZero ((selectWindow nullTempStore.table 0 24).filterMap Row.pm25_aqi)
        st.MinPM25AQI ∧
      IsMaxOrZero ((selectWindow nullTempStore.table 0 24).filterMap Row.current_temp_f)
        st.MaxTemp ∧
      IsMinOrZero ((selectWindow nullTempStore.table 0 24).filterMap Row.current_temp_f)
        st.MinTemp :=
  GetMeasurementStats_aggregates nullTempStore 0 24 rfl

/-! ## C4: a field that is absent from the snapshot -/

theorem run_appendCalls (d : Database) (readings : List (Int × AirQualityData))
    (hopen : d.closed = false) :
    ∃ app, (run d (appendCalls readings)).table.rows = d.table.rows ++ app ∧
      (run d (appendCalls readings)).closed = false ∧
      app.map (fun r => (r.timestamp, r.current_temp_f))
        = readings.map (fun p => (some p.1, some p.2.CurrentTempF)) := by
  induction readings generalizing d with
  | nil => exact ⟨[], by simp [appendCalls, run], by simpa [appendCalls, run] using hopen, rfl⟩
  | cons p rest ih =>
    have hstep : step d (Call.store p.1 true p.2) =
        { d with table :=
          { rows := d.table.rows ++ [insertedRow (nextRowid d.table) p.1 p.2]
            seq := nextRowid d.table } } := by
      simp [step, StoreMeasurement_open d p.1 p.2 hopen]
    have hrun : run d (appendCalls (p :: rest))
        = run (step d (Call.store p.1 true p.2)) (appendCalls rest) := rfl
    obtain ⟨app, happ, hcl, hmap⟩ := ih (step d (Call.store p.1 true p.2))
      (by rw [hstep]; exact hopen)
    refine ⟨insertedRow (nextRowid d.table) p.1 p.2 :: app, ?_, ?_, ?_⟩
    · rw [hrun, happ, hstep]; simp
    · rw [hrun]; exact hcl
    · simp only [List.map_cons, hmap]
      rfl

theorem filterMap_some_eq_map {α β : Type} (g : α → β) (l : List α) :
    l.filterMap (fun a => some (g a)) = l.map g := by
  induction l with
  | nil => rfl
  | cons a rest ih => simp [List.filterMap_cons, ih]

theorem sum_of_present_or_absent (temps : List ℚ) (T : ℚ)
    (h : ∀ x ∈ temps, x = T ∨ x = 0) :
    temps.sum = T * ((temps.countP (fun x => decide (x = T)) : Nat) : ℚ) := by
  induction temps with
  | nil => simp
  | cons x rest ih =>
    have hrest := ih (fun y hy => h y (List.mem_cons_of_mem x hy))
    rcases h x (List.mem_cons_self x rest) with hx | hx
    · rw [List.sum_cons, hrest, List.countP_cons_of_pos _ _ (by simpa using hx), hx]
      push_cast
      ring
    · by_cases hT : x = T
      · rw [List.sum_cons, hrest, List.countP_cons_of_pos _ _ (by simpa using hT), hT]
        push_cast
        ring
      · rw [List.sum_cons, hrest, List.countP_cons_of_neg _ _ (by simpa using hT), hx]
        ring

/-- C4, as worded, fails in two ways. After the append of one snapshot with the
temperature 70 and of one snapshot whose temperature is absent, the column
`current_temp_f` holds 70 and 0, no `NULL`, and `GetMeasurementStats` over a window with
both rows yields `AvgTemp = 35`, not 70. And over a window of 60000000 hours, whose start
lies before the calendar of SQLite, a store whose only row has the temperature 70 yields
the count 0 and `AvgTemp = 0`. -/
theorem absent_temperature_counterexample :
    (StoreMeasurement (StoreMeasurement freshDatabase 0 true sampleReading).1 0 true
      absentTempReading).2 = none ∧
    mixedStore.table.rows.map Row.current_temp_f = [some 70, some 0] ∧
    (GetMeasurementStats mixedStore 0 true 24).map MeasurementStats.AvgTemp
      = Except.ok 35 ∧
    laterStore.table.rows.map Row.current_temp_f = [some 70] ∧
    (GetMeasurementStats laterStore 3600 true 60000000).map MeasurementStats.Count
      = Except.ok 0 ∧
    (GetMeasurementStats laterStore 3600 true 60000000).map MeasurementStats.AvgTemp
      = Except.ok 0 ∧
    (GetMeasurementStats mixedStore 0 true 24).map MeasurementStats.AvgTemp
      ≠ Except.ok sampleReading.CurrentTempF := by
  have havg : (GetMeasurementStats mixedStore 0 true 24).map MeasurementStats.AvgTemp
      = Except.ok 35 := by
    rw [GetMeasurementStats_open mixedStore 0 24 rfl]
    have hrows : (selectWindow mixedStore.table 0 24).map Row.current_temp_f
        = [some 70, some 0] := rfl
    have hvals : List.reduceOption [some (70 : ℚ), some 0] = [70, 0] := rfl
    simp only [Except.map, hrows, sqlAvg, hvals, coalesce]
    norm_num
  refine ⟨rfl, rfl, havg, rfl, rfl, rfl, ?_⟩
  rw [havg]
  simp [sampleReading]

/-- C4, amended. `StoreMeasurement` on an open store whose engine runs the insert succeeds
for every snapshot, also for one in which a numeric field is absent; such a field holds
Go's zero value in the snapshot and is written as the number 0, not as `NULL`, and takes
part in later averaging as 0: after appending to an empty table snapshots whose
temperature is `T` or absent, `GetMeasurementStats` over a window that contains them all
and starts at a date of the calendar of SQLite counts all of them, and `AvgTemp` times
their number is `T` times the number of snapshots with the temperature `T`. -/
theorem absent_temperature_averaged (d : Database)
    (readings : List (Int × AirQualityData)) (now hours : Int) (T : ℚ)
    (hopen : d.closed = false) (hempty : d.table.rows = []) (hh : 0 ≤ hours)
    (hcal : windowInCalendar now hours = true)
    (hwin : ∀ p ∈ readings, now - hours * 3600 ≤ p.1)
    (htemp : ∀ p ∈ readings, p.2.CurrentTempF = T ∨ p.2.CurrentTempF = 0) :
    (∀ (e : Database) (t : Int) (s : AirQualityData), e.closed = false →
      (StoreMeasurement e t true s).2 = none) ∧
    (run d (appendCalls readings)).table.rows.map Row.current_temp_f
      = readings.map (fun p => some p.2.CurrentTempF) ∧
    ∃ st, GetMeasurementStats (run d (appendCalls readings)) now true hours = Except.ok st ∧
      st.Count = (readings.length : Int) ∧
      st.AvgTemp * (readings.length : ℚ)
        = T * ((readings.countP (fun p => decide (p.2.CurrentTempF = T)) : Nat) : ℚ) := by
  obtain ⟨app, happ, hcl, hmap⟩ := run_appendCalls d readings hopen
  rw [hempty, List.nil_append] at happ
  have htempcol : app.map Row.current_temp_f
      = readings.map (fun p => some p.2.CurrentTempF) := by
    have := congrArg (List.map Prod.snd) hmap
    simpa [List.map_map, Function.comp_def] using this
  have hts : app.map Row.timestamp = readings.map (fun p => some p.1) := by
    have := congrArg (List.map Prod.fst) hmap
    simpa [List.map_map, Function.comp_def] using this
  have hlen : app.length = readings.length := by
    have := congrArg List.length hts
    simpa using this
  have hsel : selectWindow (run d (appendCalls readings)).table now hours = app := by
    unfold selectWindow
    rw [happ]
    refine List.filter_eq_self.2 (fun r hr => ?_)
    have hmem : r.timestamp ∈ readings.map (fun p => some p.1) := by
      rw [← hts]; exact List.mem_map_of_mem Row.timestamp hr
    obtain ⟨p, hp, hpt⟩ := List.mem_map.1 hmem
    rw [inWindow_windowStart now hours hh hcal]
    simp [notBefore, ← hpt, hwin p hp]
  have hvals : app.filterMap Row.current_temp_f
      = readings.map (fun p => p.2.CurrentTempF) := by
    rw [← reduceOption_map_eq_filterMap, htempcol, reduceOption_map_eq_filterMap]
    exact filterMap_some_eq_map _ readings
  refine ⟨fun e t s he => by simp [StoreMeasurement, execError, he], ?_, ?_⟩
  · rw [happ]; exact htempcol
  · refine ⟨_, GetMeasurementStats_open _ now hours hcl, ?_, ?_⟩
    · simp [hsel, hlen]
    · have hmean := avg_column app Row.current_temp_f
      rw [hvals] at hmean
      simp only [hsel]
      have hsum := sum_of_present_or_absent (readings.map (fun p => p.2.CurrentTempF)) T
        (by
          intro x hx
          obtain ⟨p, hp, rfl⟩ := List.mem_map.1 hx
          exact htemp p hp)
      rw [List.countP_map] at hsum
      by_cases hnil : readings = []
      · subst hnil
        simp
      · have hne : readings.map (fun p => p.2.CurrentTempF) ≠ [] := by
          simpa using hnil
        have h2 := hmean.2 hne
        rw [List.length_map] at h2
        rw [h2, hsum]
        rfl

/-- The amended C4 for one snapshot with the temperature 70 and one without temperature:
`AvgTemp` times 2 is 70 times 1. -/
theorem absent_temperature_averaged_witness :
    (∀ (e : Database) (t : Int) (s : AirQualityData), e.closed = false →
      (StoreMeasurement e t true s).2 = none) ∧
    (run freshDatabase (appendCalls [(0, sampleReading), (0, absentTempReading)])).table.rows.map
        Row.current_temp_f
      = [(0, sampleReading), (0, absentTempReading)].map (fun p => some p.2.CurrentTempF) ∧
    ∃ st, GetMeasurementStats
        (run freshDatabase (appendCalls [(0, sampleReading), (0, absentTempReading)])) 0 true
        24 = Except.ok st ∧
      st.Count = (([(0, sampleReading), (0, absentTempReading)] :
        List (Int × AirQualityData)).length : Int) ∧
      st.AvgTemp * (([(0, sampleReading), (0, absentTempReading)] :
          List (Int × AirQualityData)).length : ℚ)
        = 70 * ((([(0, sampleReading), (0, absentTempReading)] :
          List (Int × AirQualityData)).countP
            (fun p => decide (p.2.CurrentTempF = 70)) : Nat) : ℚ) :=
  absent_temperature_averaged freshDatabase [(0, sampleReading), (0, absentTempReading)] 0 24
    70 rfl rfl (by decide) rfl
    (by
      intro p hp
      simp only [List.mem_cons, List.mem_singleton, List.not_mem_nil, or_false] at hp
      rcases hp with rfl | rfl <;> decide)
    (by
      intro p hp
      simp only [List.mem_cons, List.mem_singleton, List.not_mem_nil, or_false] at hp
      rcases hp with rfl | rfl
      · left; rfl
      · right; rfl)

/-! ## C6: the count of the window -/

theorem length_filterMap_add_undecodable (rows : List Row) :
    (rows.filterMap scanMeasurement).length + (rows.filter undecodable).length
      = rows.length := by
  induction rows with
  | nil => rfl
  | cons r rest ih =>
    cases h : scanMeasurement r with
    | none =>
      have hu : undecodable r = true := by simp [undecodable, h]
      rw [List.filterMap_cons_none h, List.filter_cons_of_pos hu, List.length_cons,
        List.length_cons, ← ih]
      omega
    | some m =>
      have hu : ¬ undecodable r = true := by simp [undecodable, h]
      rw [List.filterMap_cons_some h, List.filter_cons_of_neg hu, List.length_cons,
        List.length_cons, ← ih]
      omega

theorem filter_undecodable_of_decodable (rows : List Row)
    (h : ∀ r ∈ rows, scanMeasurement r ≠ none) : rows.filter undecodable = [] := by
  refine List.filter_eq_nil_iff.2 (fun r hr => ?_)
  have := h r hr
  cases hs : scanMeasurement r with
  | none => exact absurd hs this
  | some m => simp [undecodable, hs]

theorem run_decodable (d : Database) (calls : List Call)
    (h : ∀ r ∈ d.table.rows, scanMeasurement r ≠ none) :
    ∀ r ∈ (run d calls).table.rows, scanMeasurement r ≠ none := by
  induction calls generalizing d with
  | nil => exact h
  | cons c cs ih =>
    rw [run_cons]
    refine ih (step d c) (fun r hr => ?_)
    rcases step_rows d c with hs | ⟨now, ok, s, _, hs⟩
    · rw [hs] at hr; exact h r hr
    · rw [hs, List.mem_append, List.mem_singleton] at hr
      rcases hr with hr | hr
      · exact h r hr
      · rw [hr, scanMeasurement_insertedRow]
        exact Option.some_ne_none _

/-- C6, as worded, fails on a window with a row that `Scan` cannot decode: the count is
1 and the returned sequence is empty. -/
theorem count_length_counterexample :
    (GetMeasurementStats nullTempStore 0 true 24).map MeasurementStats.Count
      = Except.ok 1 ∧
    (GetRecentMeasurements nullTempStore 0 true 24).map List.length = Except.ok 0 :=
  ⟨rfl, rfl⟩

/-- C6, amended. On an open store whose engine runs the queries, for every table content,
`hours` and instant, `GetMeasurementStats(h).Count` is the number of rows in the window
(0 when it is empty), which is the number of rows the query of `GetRecentMeasurements`
selects for the same window at the same instant; the sequence `GetRecentMeasurements`
returns is shorter by the number of rows in the window that cannot be decoded, and as
long as the count when every row of the window decodes, which is so in every state that
a fresh store reaches by calls. -/
theorem stats_count (d : Database) (now hours : Int) (hopen : d.closed = false) :
    ∃ st ms, GetMeasurementStats d now true hours = Except.ok st ∧
      GetRecentMeasurements d now true hours = Except.ok ms ∧
      st.Count = ((selectWindow d.table now hours).length : Int) ∧
      st.Count = ((selectRecent d.table now hours).length : Int) ∧
      (ms.length : Int) + (((selectWindow d.table now hours).filter undecodable).length : Int)
        = st.Count ∧
      ((∀ r ∈ selectWindow d.table now hours, scanMeasurement r ≠ none) →
        (ms.length : Int) = st.Count) ∧
      ∀ calls : List Call, ∀ r ∈ (run freshDatabase calls).table.rows,
        scanMeasurement r ≠ none := by
  have hperm := selectRecent_perm d.table now hours
  have hlen : ((selectRecent d.table now hours).filterMap scanMeasurement).length
      + ((selectWindow d.table now hours).filter undecodable).length
      = (selectWindow d.table now hours).length := by
    rw [← length_filterMap_add_undecodable (selectWindow d.table now hours)]
    rw [(hperm.filterMap scanMeasurement).length_eq]
  refine ⟨_, _, GetMeasurementStats_open d now hours hopen,
    GetRecentMeasurements_open d now hours hopen, rfl, ?_, ?_, ?_, ?_⟩
  · simp [hperm.length_eq]
  · simp only []
    exact_mod_cast hlen
  · intro hdec
    rw [filter_undecodable_of_decodable _ hdec] at hlen
    simp only []
    exact_mod_cast hlen
  · intro calls
    exact run_decodable freshDatabase calls
      (fun r hr => by simp [freshDatabase, createTables] at hr)

/-- The amended C6 at the store of the specification's example. -/
theorem stats_count_witness :
    ∃ st ms, GetMeasurementStats threeRowStore (30 * 3600) true 24 = Except.ok st ∧
      GetRecentMeasurements threeRowStore (30 * 3600) true 24 = Except.ok ms ∧
      st.Count = ((selectWindow threeRowStore.table (30 * 3600) 24).length : Int) ∧
      st.Count = ((selectRecent threeRowStore.table (30 * 3600) 24).length : Int) ∧
      (ms.length : Int)
          + (((selectWindow threeRowStore.table (30 * 3600) 24).filter undecodable).length : Int)
        = st.Count ∧
      ((∀ r ∈ selectWindow threeRowStore.table (30 * 3600) 24, scanMeasurement r ≠ none) →
        (ms.length : Int) = st.Count) ∧
      ∀ calls : List Call, ∀ r ∈ (run freshDatabase calls).table.rows,
        scanMeasurement r ≠ none :=
  stats_count threeRowStore (30 * 3600) 24 rfl

/-! ## C8: rows that cannot be decoded -/

/-- C8, as worded, fails: of two rows in the window, the first with a `NULL` temperature,
`GetRecentMeasurements` returns the summary of the second alone, with a nil error. -/
theorem skipped_row_counterexample :
    GetRecentMeasurements partlyNullStore 0 true 24
      = Except.ok [summaryOf 0 sampleReading] ∧
    (selectWindow partlyNullStore.table 0 24).map Row.id = [1, 2] ∧
    (selectWindow partlyNullStore.table 0 24).map undecodable = [true, false] :=
  ⟨rfl, rfl, rfl⟩

/-- C8, amended. For every table content, instant and `hours`, `GetRecentMeasurements`
either returns an error and no sequence, or returns a nil error and the summaries of
exactly the rows in the window that decode: a row that cannot be decoded is skipped and
the other rows are still returned, so the result has a summary for every row of the
window when all of them decode. -/
theorem GetRecentMeasurements_skips_undecodable (d : Database) (now : Int) (ok : Bool)
    (hours : Int) :
    (∃ cause, GetRecentMeasurements d now ok hours
      = Except.error (StoreError.queryFailed cause)) ∨
    ∃ ms, GetRecentMeasurements d now ok hours = Except.ok ms ∧
      (∀ m, m ∈ ms ↔ ∃ r ∈ selectWindow d.table now hours, scanMeasurement r = some m) ∧
      ms.length + ((selectWindow d.table now hours).filter undecodable).length
        = (selectWindow d.table now hours).length ∧
      ((∀ r ∈ selectWindow d.table now hours, scanMeasurement r ≠ none) →
        ms.length = (selectWindow d.table now hours).length) := by
  cases he : execError d ok with
  | some e => exact Or.inl ⟨e, by simp [GetRecentMeasurements, he]⟩
  | none =>
    right
    have hperm := selectRecent_perm d.table now hours
    have hlen : ((selectRecent d.table now hours).filterMap scanMeasurement).length
        + ((selectWindow d.table now hours).filter undecodable).length
        = (selectWindow d.table now hours).length := by
      rw [← length_filterMap_add_undecodable (selectWindow d.table now hours)]
      rw [(hperm.filterMap scanMeasurement).length_eq]
    refine ⟨(selectRecent d.table now hours).filterMap scanMeasurement,
      by simp [GetRecentMeasurements, he, scanLoop_eq], ?_, hlen, ?_⟩
    · intro m
      rw [List.mem_filterMap]
      constructor
      · rintro ⟨r, hr, hm⟩
        exact ⟨r, hperm.subset hr, hm⟩
      · rintro ⟨r, hr, hm⟩
        exact ⟨r, hperm.symm.subset hr, hm⟩
    · intro hdec
      rw [filter_undecodable_of_decodable _ hdec] at hlen
      simpa using hlen

/-- The amended C8 at a store with an undecodable and a decodable row in the window. -/
theorem GetRecentMeasurements_skips_undecodable_witness :
    (∃ cause, GetRecentMeasurements partlyNullStore 0 true 24
      = Except.error (StoreError.queryFailed cause)) ∨
    ∃ ms, GetRecentMeasurements partlyNullStore 0 true 24 = Except.ok ms ∧
      (∀ m, m ∈ ms ↔ ∃ r ∈ selectWindow partlyNullStore.table 0 24,
        scanMeasurement r = some m) ∧
      ms.length + ((selectWindow partlyNullStore.table 0 24).filter undecodable).length
        = (selectWindow partlyNullStore.table 0 24).length ∧
      ((∀ r ∈ selectWindow partlyNullStore.table 0 24, scanMeasurement r ≠ none) →
        ms.length = (selectWindow partlyNullStore.table 0 24).length) :=
  GetRecentMeasurements_skips_undecodable partlyNullStore 0 true 24

/-! ## C10: the closed store -/

theorem step_closed (d : Database) (c : Call) (h : d.closed = true) : step d c = d := by
  cases c with
  | store now ok s => simp [step, StoreMeasurement, execError, h]
  | recent now ok hours => rfl
  | stats now ok hours => rfl
  | close =>
    cases d with
    | mk table closed =>
      simp only [] at h
      simp [step, Close, h]

theorem run_closed (d : Database) (calls : List Call) (h : d.closed = true) :
    run d calls = d := by
  induction calls with
  | nil => rfl
  | cons c cs ih => rw [run_cons, step_closed d c h, ih]

/-- C10. `Close` returns nil, and on the closed store every `StoreMeasurement`,
`GetRecentMeasurements` and `GetMeasurementStats` call returns the error of a closed
handle and leaves the store as it was; no sequence of calls changes the closed store, so
no later call succeeds. -/
theorem closed_store_rejects (d : Database) (calls : List Call) (now : Int) (ok : Bool)
    (s : AirQualityData) (hours : Int) :
    (Close d).2 = none ∧
    run (Close d).1 calls = (Close d).1 ∧
    StoreMeasurement (run (Close d).1 calls) now ok s
      = ((Close d).1, some (StoreError.insertFailed SqlError.dbClosed)) ∧
    GetRecentMeasurements (run (Close d).1 calls) now ok hours
      = Except.error (StoreError.queryFailed SqlError.dbClosed) ∧
    GetMeasurementStats (run (Close d).1 calls) now ok hours
      = Except.error (StoreError.statsFailed SqlError.dbClosed) := by
  have hc : (Close d).1.closed = true := rfl
  rw [run_closed (Close d).1 calls hc]
  refine ⟨rfl, rfl, ?_, ?_, ?_⟩
  · simp [StoreMeasurement, execError, hc]
  · simp [GetRecentMeasurements, execError, hc]
  · simp [GetMeasurementStats, execError, hc]

/-! ## C7: the table is append-only -/

/-- C7. A `StoreMeasurement` that returns nil adds exactly one row, the complete row of
its snapshot, after the rows that were there, and leaves those unchanged; one that returns
an error leaves the store as it was; `GetRecentMeasurements` and `GetMeasurementStats`
leave the store as it was; and after any sequence of calls the rows that were in the
table are still there, unchanged and in place, at the head of the table. -/
theorem measurements_append_only (d : Database) (now : Int) (ok : Bool)
    (s : AirQualityData) (hours : Int) (calls : List Call) :
    (d.closed = false → (StoreMeasurement d now true s).2 = none) ∧
    ((StoreMeasurement d now ok s).2 = none →
      (StoreMeasurement d now ok s).1.table.rows
        = d.table.rows ++ [insertedRow (nextRowid d.table) now s]) ∧
    ((StoreMeasurement d now ok s).2 ≠ none → (StoreMeasurement d now ok s).1 = d) ∧
    step d (Call.recent now ok hours) = d ∧
    step d (Call.stats now ok hours) = d ∧
    d.table.rows <+: (run d calls).table.rows ∧
    d.table.rows.length ≤ (run d calls).table.rows.length := by
  obtain ⟨app, happ, _⟩ := run_rows d calls
  refine ⟨fun h => by simp [StoreMeasurement, execError, h], ?_,
    StoreMeasurement_failed d now ok s, rfl, rfl, ?_, ?_⟩
  · intro h
    rw [(StoreMeasurement_ok d now ok s h).2]
  · rw [happ]; exact List.prefix_append _ _
  · rw [happ, List.length_append]; omega

/-- C7 at a store with one row, for an append an hour later and a run of a failed
append, a fetch, an append and `Close`. -/
theorem measurements_append_only_witness :
    (laterStore.closed = false →
      (StoreMeasurement laterStore 7200 true sampleReading).2 = none) ∧
    ((StoreMeasurement laterStore 7200 true sampleReading).2 = none →
      (StoreMeasurement laterStore 7200 true sampleReading).1.table.rows
        = laterStore.table.rows ++ [insertedRow (nextRowid laterStore.table) 7200
            sampleReading]) ∧
    ((StoreMeasurement laterStore 7200 true sampleReading).2 ≠ none →
      (StoreMeasurement laterStore 7200 true sampleReading).1 = laterStore) ∧
    step laterStore (Call.recent 7200 true 24) = laterStore ∧
    step laterStore (Call.stats 7200 true 24) = laterStore ∧
    laterStore.table.rows <+: (run laterStore [Call.store 7200 false sampleReading,
      Call.recent 7200 true 24, Call.store 7200 true absentTempReading,
      Call.close]).table.rows ∧
    laterStore.table.rows.length ≤ (run laterStore [Call.store 7200 false sampleReading,
      Call.recent 7200 true 24, Call.store 7200 true absentTempReading,
      Call.close]).table.rows.length :=
  measurements_append_only laterStore 7200 true sampleReading 24
    [Call.store 7200 false sampleReading, Call.recent 7200 true 24,
      Call.store 7200 true absentTempReading, Call.close]

/-! ## C9: identities and ingestion timestamps -/

theorem le_foldl_maxRowid (rows : List Row) (init : Int) :
    init ≤ rows.foldl (fun m r => max m r.id) init ∧
    ∀ r ∈ rows, r.id ≤ rows.foldl (fun m r => max m r.id) init := by
  induction rows generalizing init with
  | nil => simp
  | cons a rest ih =>
    obtain ⟨h1, h2⟩ := ih (max init a.id)
    simp only [List.foldl_cons]
    refine ⟨le_trans (le_max_left _ _) h1, fun r hr => ?_⟩
    rcases List.mem_cons.1 hr with h | h
    · rw [h]; exact le_trans (le_max_right _ _) h1
    · exact h2 r h

theorem id_lt_nextRowid (t : Table) (r : Row) (h : r ∈ t.rows) : r.id < nextRowid t := by
  have h1 := (le_foldl_maxRowid t.rows 0).2 r h
  have h2 : maxRowid t.rows ≤ max t.seq (maxRowid t.rows) := le_max_right _ _
  unfold nextRowid
  unfold maxRowid at h2 ⊢
  omega

theorem step_ids (d : Database) (c : Call)
    (h : d.table.rows.Pairwise (fun a b => a.id < b.id)) :
    (step d c).table.rows.Pairwise (fun a b => a.id < b.id) := by
  rcases step_rows d c with hs | ⟨now, ok, s, _, hs⟩
  · rw [hs]; exact h
  · rw [hs, List.pairwise_append]
    refine ⟨h, List.pairwise_singleton _ _, fun a ha b hb => ?_⟩
    rw [List.mem_singleton] at hb
    rw [hb]
    exact id_lt_nextRowid d.table a ha

theorem run_ids (d : Database) (calls : List Call)
    (h : d.table.rows.Pairwise (fun a b => a.id < b.id)) :
    (run d calls).table.rows.Pairwise (fun a b => a.id < b.id) := by
  induction calls generalizing d with
  | nil => exact h
  | cons c cs ih =>
    rw [run_cons]
    exact ih (step d c) (step_ids d c h)

theorem maxRowid_eq_of_keys (d e : Database) (h : rowKeys d = rowKeys e) :
    maxRowid d.table.rows = maxRowid e.table.rows := by
  have hd : ∀ rows : List Row, maxRowid rows
      = (rows.map (fun r => (r.id, r.timestamp))).foldl (fun m k => max m k.1) 0 := by
    intro rows
    unfold maxRowid
    rw [List.foldl_map]
  rw [hd, hd]
  unfold rowKeys at h
  rw [h]

theorem step_sameKeys (d e : Database) (c : Call) (f : AirQualityData → AirQualityData)
    (h : SameKeys d e) : SameKeys (step d c) (step e (Call.mapData f c)) := by
  obtain ⟨hc, hseq, hk⟩ := h
  cases c with
  | store now ok s =>
    have hnext : nextRowid d.table = nextRowid e.table := by
      unfold nextRowid
      rw [hseq, maxRowid_eq_of_keys d e hk]
    have hex : execError d ok = execError e ok := by
      unfold execError
      rw [hc]
    simp only [step, Call.mapData, StoreMeasurement]
    cases he : execError e ok with
    | some err =>
      simp only [hex, he]
      exact ⟨hc, hseq, hk⟩
    | none =>
      simp only [hex, he]
      refine ⟨hc, hnext, ?_⟩
      unfold rowKeys at hk ⊢
      simp only [List.map_append, hk, hnext]
      rfl
  | recent now ok hours => exact ⟨hc, hseq, hk⟩
  | stats now ok hours => exact ⟨hc, hseq, hk⟩
  | close => exact ⟨rfl, hseq, hk⟩

theorem run_sameKeys (d e : Database) (calls : List Call)
    (f : AirQualityData → AirQualityData) (h : SameKeys d e) :
    SameKeys (run d calls) (run e (calls.map (Call.mapData f))) := by
  induction calls generalizing d e with
  | nil => exact h
  | cons c cs ih =>
    rw [List.map_cons, run_cons, run_cons]
    exact ih _ _ (step_sameKeys d e c f h)

/-- C9. In every state that a fresh store reaches by a sequence of calls whose
`StoreMeasurement` calls meet non-decreasing clock readings: the ids of the rows increase
strictly in insertion order and are pairwise distinct; the ingestion timestamps are clock
readings of the `StoreMeasurement` calls, in order, and are non-decreasing in insertion
order; and neither the ids nor the timestamps depend on the snapshots, `DateTime`
included: replacing every snapshot by any other leaves them as they are. -/
theorem store_invariant (calls : List Call)
    (hclock : (insertTimes calls).Sorted (fun a b => a ≤ b)) :
    NewDatabase none true = Except.ok freshDatabase ∧
    (run freshDatabase calls).table.rows.Pairwise (fun a b => a.id < b.id) ∧
    ((run freshDatabase calls).table.rows.map Row.id).Nodup ∧
    (∃ times : List Int,
      (run freshDatabase calls).table.rows.map Row.timestamp = times.map some ∧
      times.Sublist (insertTimes calls) ∧
      times.Pairwise (fun a b => a ≤ b)) ∧
    ∀ f : AirQualityData → AirQualityData,
      rowKeys (run freshDatabase (calls.map (Call.mapData f)))
        = rowKeys (run freshDatabase calls) := by
  have hids : (run freshDatabase calls).table.rows.Pairwise (fun a b => a.id < b.id) :=
    run_ids freshDatabase calls List.Pairwise.nil
  refine ⟨rfl, hids, ?_, ?_, ?_⟩
  · rw [List.Nodup, List.pairwise_map]
    exact hids.imp (fun h => ne_of_lt h)
  · obtain ⟨app, happ, hsub⟩ := run_rows freshDatabase calls
    have hrows : (run freshDatabase calls).table.rows = app := by
      rw [happ]; rfl
    rw [hrows]
    obtain ⟨times, htimes, heq⟩ := List.sublist_map_iff.1 hsub
    exact ⟨times, heq, htimes, hclock.sublist htimes⟩
  · intro f
    exact (run_sameKeys freshDatabase freshDatabase calls f ⟨rfl, rfl, rfl⟩).2.2.symm

/-- C9 at a run of three appends at the instants 0, 0 and 3600, with a fetch and a
failed append in between. -/
theorem store_invariant_witness :
    NewDatabase none true = Except.ok freshDatabase ∧
    (run freshDatabase [Call.store 0 true sampleReading, Call.store 0 true absentTempReading,
      Call.recent 60 true 24, Call.store 1800 false sampleReading,
      Call.store 3600 true sampleReading]).table.rows.Pairwise (fun a b => a.id < b.id) ∧
    ((run freshDatabase [Call.store 0 true sampleReading, Call.store 0 true absentTempReading,
      Call.recent 60 true 24, Call.store 1800 false sampleReading,
      Call.store 3600 true sampleReading]).table.rows.map Row.id).Nodup ∧
    (∃ times : List Int,
      (run freshDatabase [Call.store 0 true sampleReading,
        Call.store 0 true absentTempReading, Call.recent 60 true 24,
        Call.store 1800 false sampleReading,
        Call.store 3600 true sampleReading]).table.rows.map Row.timestamp = times.map some ∧
      times.Sublist (insertTimes [Call.store 0 true sampleReading,
        Call.store 0 true absentTempReading, Call.recent 60 true 24,
        Call.store 1800 false sampleReading, Call.store 3600 true sampleReading]) ∧
      times.Pairwise (fun a b => a ≤ b)) ∧
    ∀ f : AirQualityData → AirQualityData,
      rowKeys (run freshDatabase ([Call.store 0 true sampleReading,
        Call.store 0 true absentTempReading, Call.recent 60 true 24,
        Call.store 1800 false sampleReading,
        Call.store 3600 true sampleReading].map (Call.mapData f)))
        = rowKeys (run freshDatabase [Call.store 0 true sampleReading,
          Call.store 0 true absentTempReading, Call.recent 60 true 24,
          Call.store 1800 false sampleReading, Call.store 3600 true sampleReading]) :=
  store_invariant [Call.store 0 true sampleReading, Call.store 0 true absentTempReading,
    Call.recent 60 true 24, Call.store 1800 false sampleReading,
    Call.store 3600 true sampleReading] (by decide)

/-! ## C11: opening an existing location -/

theorem reopened_existing (n : Nat) (t : Table) : reopened n (some t) = some t := by
  induction n with
  | zero => rfl
  | succ k ih => exact ih

/-- C11. For every existing location holding a table with the rows `R`, and every number
of earlier calls of `NewDatabase` on it, a call of `NewDatabase` whose statements the
engine runs succeeds with an open handle on exactly that table, rows and rowid counter
unchanged: `CREATE TABLE IF NOT EXISTS` keeps an existing table as it is. -/
theorem reopen_keeps_rows (t : Table) (n : Nat) :
    createTables (some t) = t ∧
    reopened n (some t) = some t ∧
    NewDatabase (reopened n (some t)) true = Except.ok { table := t, closed := false } ∧
    ∀ d, NewDatabase (reopened n (some t)) true = Except.ok d → d.table.rows = t.rows := by
  refine ⟨rfl, reopened_existing n t, ?_, ?_⟩
  · rw [reopened_existing n t]; rfl
  · intro d hd
    rw [reopened_existing n t] at hd
    have h : ({ table := t, closed := false } : Database) = d := Except.ok.inj hd
    rw [← h]

/-! ## C17: the path of the database -/

/-- C17. For every value `v` of `DATABASE_PATH`, the path handed to `NewDatabase` is `v`
when `v` is not empty and `air_quality.db` when it is empty or unset; the empty value
gives `air_quality.db`, `/app/data/air_quality.db` gives itself, and the selection applied
to its own result returns that result. -/
theorem databasePath_selection (v : String) :
    (v ≠ "" → databasePath v = v) ∧
    (v = "" → databasePath v = "air_quality.db") ∧
    databasePath "" = "air_quality.db" ∧
    databasePath "/app/data/air_quality.db" = "/app/data/air_quality.db" ∧
    databasePath (databasePath v) = databasePath v := by
  refine ⟨fun h => by simp [databasePath, h], fun h => by simp [databasePath, h],
    by decide, by decide, ?_⟩
  by_cases h : v = ""
  · subst h; decide
  · simp [databasePath, h]

/-! ## C12 and C18: the window the handlers compute -/

theorem hoursOfGetMeasurements_eq (h : String) :
    hoursOfGetMeasurements h = windowOfParameter h := by
  unfold hoursOfGetMeasurements windowOfParameter Sscanf
  by_cases he : h = ""
  · subst he; rfl
  · cases hs : scanInt h.data <;> simp [he]

theorem hoursOfGetStats_eq (h : String) :
    hoursOfGetStats h = windowOfParameter h := by
  unfold hoursOfGetStats windowOfParameter Sscanf
  by_cases he : h = ""
  · subst he; rfl
  · cases hs : scanInt h.data <;> simp [he]

/-- C12, as worded, fails: the parameter `0` gives both handlers the window 0 and the
parameter `-5` the window -5, neither a positive integer. -/
theorem window_positive_counterexample :
    hoursOfGetMeasurements "0" = 0 ∧ hoursOfGetStats "0" = 0 ∧
    hoursOfGetMeasurements "-5" = -5 ∧ hoursOfGetStats "-5" = -5 ∧
    ¬ (∀ h : String, 0 < hoursOfGetMeasurements h ∧ 0 < hoursOfGetStats h) := by
  refine ⟨by decide, by decide, by decide, by decide, ?_⟩
  intro hall
  have h0 := (hall "0").1
  have : hoursOfGetMeasurements "0" = 0 := by decide
  rw [this] at h0
  exact lt_irrefl 0 h0

/-- C12, amended. For every value of the query parameter `hours` (absent, empty,
non-numeric, zero and negative ones included), the window that `handleGetMeasurements`
and `handleGetStats` pass to the store is 24 when the parameter is absent or empty or
does not scan, and the scanned integer otherwise, unclamped: it is a positive integer
exactly when the parameter does not scan or scans as a positive integer. -/
theorem window_of_request (h : String) :
    (h = "" → hoursOfGetMeasurements h = 24 ∧ hoursOfGetStats h = 24) ∧
    (scanInt h.data = none → hoursOfGetMeasurements h = 24 ∧ hoursOfGetStats h = 24) ∧
    (∀ n, scanInt h.data = some n →
      hoursOfGetMeasurements h = n ∧ hoursOfGetStats h = n) ∧
    (0 < hoursOfGetMeasurements h ↔ ∀ n, scanInt h.data = some n → 0 < n) ∧
    (0 < hoursOfGetStats h ↔ ∀ n, scanInt h.data = some n → 0 < n) := by
  rw [hoursOfGetMeasurements_eq, hoursOfGetStats_eq]
  unfold windowOfParameter
  refine ⟨?_, ?_, ?_, ?_, ?_⟩
  · intro he; subst he; exact ⟨rfl, rfl⟩
  · intro hs; rw [hs]; exact ⟨rfl, rfl⟩
  · intro n hs; rw [hs]; exact ⟨rfl, rfl⟩
  · cases hs : scanInt h.data with
    | none => simp
    | some v => simp
  · cases hs : scanInt h.data with
    | none => simp
    | some v => simp

/-- C18. For every parameter string the two handlers compute the same window, although
one tests `err != nil || parsed != 1` and the other `parsed != 1 || err != nil`: the
window is 24 when the parameter is absent, empty or does not scan as a decimal integer,
and the scanned integer otherwise. -/
theorem handlers_same_window (h : String) :
    hoursOfGetMeasurements h = hoursOfGetStats h ∧
    hoursOfGetMeasurements h = windowOfParameter h ∧
    hoursOfGetStats h = windowOfParameter h ∧
    windowOfParameter "" = 24 := by
  refine ⟨?_, hoursOfGetMeasurements_eq h, hoursOfGetStats_eq h, rfl⟩
  rw [hoursOfGetMeasurements_eq, hoursOfGetStats_eq]

/-! ## C13: a failed append and the request that triggered it -/

/-- C13. For every successfully fetched snapshot, the response of `handleGetDataJSON`
(status, headers and body) is the same whether the database is absent, `StoreMeasurement`
succeeds or `StoreMeasurement` returns an error; a failed `StoreMeasurement` leaves the
store as it was, so every later `StoreMeasurement` behaves as if the failure had not
happened, and on an open store a later one that the engine runs succeeds. -/
theorem failed_append_same_response (data : AirQualityData) (d : Database) (now : Int)
    (ok : Bool) (later : Int) (ok2 : Bool) (next : AirQualityData) :
    (handleGetDataJSON (some d) (Except.ok data) now ok).1
      = (handleGetDataJSON none (Except.ok data) now ok).1 ∧
    (handleGetDataJSON (some d) (Except.ok data) now ok).1
      = { status := 200
          headers := [("Content-Type", "application/json"),
            ("Access-Control-Allow-Origin", "*")]
          body := Body.json data } ∧
    (handleGetDataJSON (some d) (Except.ok data) now ok).2
      = some (StoreMeasurement d now ok data).1 ∧
    ((StoreMeasurement d now ok data).2 ≠ none →
      StoreMeasurement (StoreMeasurement d now ok data).1 later ok2 next
        = StoreMeasurement d later ok2 next) ∧
    (StoreMeasurement d now false data).2 ≠ none ∧
    (d.closed = false →
      (StoreMeasurement (StoreMeasurement d now false data).1 later true next).2 = none) := by
  have hfail : (StoreMeasurement d now false data).2 ≠ none := by
    cases hc : d.closed <;> simp [StoreMeasurement, execError, hc]
  refine ⟨rfl, rfl, rfl, ?_, hfail, ?_⟩
  · intro h
    rw [StoreMeasurement_failed d now ok data h]
  · intro hopen
    rw [StoreMeasurement_failed d now false data hfail]
    simp [StoreMeasurement, execError, hopen]

/-- C13 at a store with one row: an append that the engine rejects, then one it runs. -/
theorem failed_append_same_response_witness :
    (handleGetDataJSON (some laterStore) (Except.ok sampleReading) 7200 false).1
      = (handleGetDataJSON none (Except.ok sampleReading) 7200 false).1 ∧
    (handleGetDataJSON (some laterStore) (Except.ok sampleReading) 7200 false).1
      = { status := 200
          headers := [("Content-Type", "application/json"),
            ("Access-Control-Allow-Origin", "*")]
          body := Body.json sampleReading } ∧
    (handleGetDataJSON (some laterStore) (Except.ok sampleReading) 7200 false).2
      = some (StoreMeasurement laterStore 7200 false sampleReading).1 ∧
    ((StoreMeasurement laterStore 7200 false sampleReading).2 ≠ none →
      StoreMeasurement (StoreMeasurement laterStore 7200 false sampleReading).1 7260 true
          absentTempReading
        = StoreMeasurement laterStore 7260 true absentTempReading) ∧
    (StoreMeasurement laterStore 7200 false sampleReading).2 ≠ none ∧
    (laterStore.closed = false →
      (StoreMeasurement (StoreMeasurement laterStore 7200 false sampleReading).1 7260 true
        absentTempReading).2 = none) :=
  failed_append_same_response sampleReading laterStore 7200 false 7260 true
    absentTempReading

/-! ## C15: the fetch does not fail -/

/-- C15. On an open store whose engine runs the query, for every table content and every
integer `hours`, also zero and negative ones, `GetRecentMeasurements` returns a nil
error and a sequence; the sequence is empty whenever no stored row lies in the window, in
particular on an empty table, and for every negative `hours`. -/
theorem GetRecentMeasurements_total (d : Database) (now hours : Int)
    (hopen : d.closed = false) :
    ∃ ms, GetRecentMeasurements d now true hours = Except.ok ms ∧
      (selectWindow d.table now hours = [] → ms = []) ∧
      ((∀ r ∈ d.table.rows, notBefore (now - hours * 3600) r = false) → ms = []) ∧
      (d.table.rows = [] → ms = []) ∧
      (hours < 0 → ms = []) := by
  have hnil : selectWindow d.table now hours = [] →
      (selectRecent d.table now hours).filterMap scanMeasurement = [] := by
    intro h
    have hp := selectRecent_perm d.table now hours
    rw [h] at hp
    rw [List.Perm.eq_nil hp]
    rfl
  have hneg : hours < 0 → selectWindow d.table now hours = [] := by
    intro h
    unfold selectWindow
    refine List.filter_eq_nil_iff.2 (fun r _ => ?_)
    cases ht : r.timestamp <;> simp [windowStart, h, inWindow, ht]
  refine ⟨_, GetRecentMeasurements_open d now hours hopen, hnil, ?_, ?_, ?_⟩
  · intro hout
    refine hnil ?_
    unfold selectWindow
    refine List.filter_eq_nil_iff.2 (fun r hr hin => ?_)
    have hnb := notBefore_of_inWindow now hours r hin
    rw [hout r hr] at hnb
    exact absurd hnb (by simp)
  · intro hrows
    refine hnil ?_
    unfold selectWindow
    rw [hrows]
    rfl
  · intro h
    exact hnil (hneg h)

/-- C15 at the store of the specification's example, with a window of -3 hours. -/
theorem GetRecentMeasurements_total_witness :
    ∃ ms, GetRecentMeasurements threeRowStore (30 * 3600) true (-3) = Except.ok ms ∧
      (selectWindow threeRowStore.table (30 * 3600) (-3) = [] → ms = []) ∧
      ((∀ r ∈ threeRowStore.table.rows,
        notBefore (30 * 3600 - -3 * 3600) r = false) → ms = []) ∧
      (threeRowStore.table.rows = [] → ms = []) ∧
      ((-3 : Int) < 0 → ms = []) :=
  GetRecentMeasurements_total threeRowStore (30 * 3600) (-3) rfl

/-! ## C14: the fields the row holds -/

/-- C14, as worded, fails: two snapshots that differ in the field `Id`, for which the
table has no column, produce the same row and leave the same table. -/
theorem unstored_field_counterexample :
    sampleReading.Id ≠ otherIdReading.Id ∧
    insertedRow 1 0 sampleReading = insertedRow 1 0 otherIdReading ∧
    (StoreMeasurement freshDatabase 0 true sampleReading).1.table.rows
      = (StoreMeasurement freshDatabase 0 true otherIdReading).1.table.rows :=
  ⟨by decide, rfl, rfl⟩

theorem insertedRow_eq_iff (id now : Int) (s t : AirQualityData) :
    insertedRow id now s = insertedRow id now t ↔
      s.SensorId = t.SensorId ∧
      s.DateTime = t.DateTime ∧
      s.Geo = t.Geo ∧
      s.Lat = t.Lat ∧
      s.Lon = t.Lon ∧
      s.Place = t.Place ∧
      s.Version = t.Version ∧
      s.Uptime = t.Uptime ∧
      s.Rssi = t.Rssi ∧
      s.Wlstate = t.Wlstate ∧
      s.Ssid = t.Ssid ∧
      s.CurrentTempF = t.CurrentTempF ∧
      s.CurrentHumidity = t.CurrentHumidity ∧
      s.CurrentDewpointF = t.CurrentDewpointF ∧
      s.Pressure = t.Pressure ∧
      s.Gas680 = t.Gas680 ∧
      s.Pm25Aqi = t.Pm25Aqi ∧
      s.Pm10Cf1 = t.Pm10Cf1 ∧
      s.Pm25Cf1 = t.Pm25Cf1 ∧
      s.Pm100Cf1 = t.Pm100Cf1 ∧
      s.Pm10Atm = t.Pm10Atm ∧
      s.Pm25Atm = t.Pm25Atm ∧
      s.Pm100Atm = t.Pm100Atm ∧
      s.Pm25AqiB = t.Pm25AqiB ∧
      s.Pm10Cf1B = t.Pm10Cf1B ∧
      s.Pm25Cf1B = t.Pm25Cf1B ∧
      s.Pm100Cf1B = t.Pm100Cf1B ∧
      s.Pm10AtmB = t.Pm10AtmB ∧
      s.Pm25AtmB = t.Pm25AtmB ∧
      s.Pm100AtmB = t.Pm100AtmB ∧
      s.Mem = t.Mem ∧
      s.Memfrag = t.Memfrag ∧
      s.Memfb = t.Memfb ∧
      s.Memcs = t.Memcs ∧
      s.Adc = t.Adc ∧
      s.Httpsuccess = t.Httpsuccess ∧
      s.Httpsends = t.Httpsends ∧
      s.PaLatency = t.PaLatency ∧
      s.Status0 = t.Status0 ∧
      s.Status1 = t.Status1 ∧
      s.Status2 = t.Status2 ∧
      s.Status3 = t.Status3 ∧
      s.Status4 = t.Status4 := by
  simp only [insertedRow, Row.mk.injEq, Option.some.injEq, true_and]

/-- C14, amended. On an open store whose engine runs the insert, `StoreMeasurement`
succeeds and the row it adds holds the 43 fields of the snapshot that its `INSERT` binds,
each under its column: two snapshots leave different tables exactly when they differ in
one of these 43 fields. The other 23 fields of `AirQualityData` (`Id`, `Loggingrate`,
`Period`, `Hardwareversion`, `Hardwarediscovered`, the four `680` readings but `Gas680`,
`P25aqic`, `P25aqicB` and the twelve particle counts) have no column and do not reach
the table. -/
theorem stored_fields (d : Database) (now : Int) (s t : AirQualityData)
    (hopen : d.closed = false) :
    (StoreMeasurement d now true s).2 = none ∧
    (StoreMeasurement d now true s).1.table.rows
      = d.table.rows ++ [insertedRow (nextRowid d.table) now s] ∧
    ((StoreMeasurement d now true s).1.table.rows
        = (StoreMeasurement d now true t).1.table.rows ↔
      s.SensorId = t.SensorId ∧
      s.DateTime = t.DateTime ∧
      s.Geo = t.Geo ∧
      s.Lat = t.Lat ∧
      s.Lon = t.Lon ∧
      s.Place = t.Place ∧
      s.Version = t.Version ∧
      s.Uptime = t.Uptime ∧
      s.Rssi = t.Rssi ∧
      s.Wlstate = t.Wlstate ∧
      s.Ssid = t.Ssid ∧
      s.CurrentTempF = t.CurrentTempF ∧
      s.CurrentHumidity = t.CurrentHumidity ∧
      s.CurrentDewpointF = t.CurrentDewpointF ∧
      s.Pressure = t.Pressure ∧
      s.Gas680 = t.Gas680 ∧
      s.Pm25Aqi = t.Pm25Aqi ∧
      s.Pm10Cf1 = t.Pm10Cf1 ∧
      s.Pm25Cf1 = t.Pm25Cf1 ∧
      s.Pm100Cf1 = t.Pm100Cf1 ∧
      s.Pm10Atm = t.Pm10Atm ∧
      s.Pm25Atm = t.Pm25Atm ∧
      s.Pm100Atm = t.Pm100Atm ∧
      s.Pm25AqiB = t.Pm25AqiB ∧
      s.Pm10Cf1B = t.Pm10Cf1B ∧
      s.Pm25Cf1B = t.Pm25Cf1B ∧
      s.Pm100Cf1B = t.Pm100Cf1B ∧
      s.Pm10AtmB = t.Pm10AtmB ∧
      s.Pm25AtmB = t.Pm25AtmB ∧
      s.Pm100AtmB = t.Pm100AtmB ∧
      s.Mem = t.Mem ∧
      s.Memfrag = t.Memfrag ∧
      s.Memfb = t.Memfb ∧
      s.Memcs = t.Memcs ∧
      s.Adc = t.Adc ∧
      s.Httpsuccess = t.Httpsuccess ∧
      s.Httpsends = t.Httpsends ∧
      s.PaLatency = t.PaLatency ∧
      s.Status0 = t.Status0 ∧
      s.Status1 = t.Status1 ∧
      s.Status2 = t.Status2 ∧
      s.Status3 = t.Status3 ∧
      s.Status4 = t.Status4) := by
  rw [StoreMeasurement_open d now s hopen, StoreMeasurement_open d now t hopen]
  refine ⟨rfl, rfl, ?_⟩
  rw [← insertedRow_eq_iff (nextRowid d.table) now s t]
  constructor
  · intro h
    have h2 := List.append_cancel_left h
    exact List.singleton_inj.1 h2
  · intro h
    show d.table.rows ++ [insertedRow (nextRowid d.table) now s]
      = d.table.rows ++ [insertedRow (nextRowid d.table) now t]
    rw [h]

/-- The amended C14 at a fresh store, for two snapshots that differ in `Id` alone. -/
theorem stored_fields_witness :
    (StoreMeasurement freshDatabase 0 true sampleReading).2 = none ∧
    (StoreMeasurement freshDatabase 0 true sampleReading).1.table.rows
      = freshDatabase.table.rows ++ [insertedRow (nextRowid freshDatabase.table) 0
          sampleReading] ∧
    ((StoreMeasurement freshDatabase 0 true sampleReading).1.table.rows
        = (StoreMeasurement freshDatabase 0 true otherIdReading).1.table.rows ↔
      sampleReading.SensorId = otherIdReading.SensorId ∧
      sampleReading.DateTime = otherIdReading.DateTime ∧
      sampleReading.Geo = otherIdReading.Geo ∧
      sampleReading.Lat = otherIdReading.Lat ∧
      sampleReading.Lon = otherIdReading.Lon ∧
      sampleReading.Place = otherIdReading.Place ∧
      sampleReading.Version = otherIdReading.Version ∧
      sampleReading.Uptime = otherIdReading.Uptime ∧
      sampleReading.Rssi = otherIdReading.Rssi ∧
      sampleReading.Wlstate = otherIdReading.Wlstate ∧
      sampleReading.Ssid = otherIdReading.Ssid ∧
      sampleReading.CurrentTempF = otherIdReading.CurrentTempF ∧
      sampleReading.CurrentHumidity = otherIdReading.CurrentHumidity ∧
      sampleReading.CurrentDewpointF = otherIdReading.CurrentDewpointF ∧
      sampleReading.Pressure = otherIdReading.Pressure ∧
      sampleReading.Gas680 = otherIdReading.Gas680 ∧
      sampleReading.Pm25Aqi = otherIdReading.Pm25Aqi ∧
      sampleReading.Pm10Cf1 = otherIdReading.Pm10Cf1 ∧
      sampleReading.Pm25Cf1 = otherIdReading.Pm25Cf1 ∧
      sampleReading.Pm100Cf1 = otherIdReading.Pm100Cf1 ∧
      sampleReading.Pm10Atm = otherIdReading.Pm10Atm ∧
      sampleReading.Pm25Atm = otherIdReading.Pm25Atm ∧
      sampleReading.Pm100Atm = otherIdReading.Pm100Atm ∧
      sampleReading.Pm25AqiB = otherIdReading.Pm25AqiB ∧
      sampleReading.Pm10Cf1B = otherIdReading.Pm10Cf1B ∧
      sampleReading.Pm25Cf1B = otherIdReading.Pm25Cf1B ∧
      sampleReading.Pm100Cf1B = otherIdReading.Pm100Cf1B ∧
      sampleReading.Pm10AtmB = otherIdReading.Pm10AtmB ∧
      sampleReading.Pm25AtmB = otherIdReading.Pm25AtmB ∧
      sampleReading.Pm100AtmB = otherIdReading.Pm100AtmB ∧
      sampleReading.Mem = otherIdReading.Mem ∧
      sampleReading.Memfrag = otherIdReading.Memfrag ∧
      sampleReading.Memfb = otherIdReading.Memfb ∧
      sampleReading.Memcs = otherIdReading.Memcs ∧
      sampleReading.Adc = otherIdReading.Adc ∧
      sampleReading.Httpsuccess = otherIdReading.Httpsuccess ∧
      sampleReading.Httpsends = otherIdReading.Httpsends ∧
      sampleReading.PaLatency = otherIdReading.PaLatency ∧
      sampleReading.Status0 = otherIdReading.Status0 ∧
      sampleReading.Status1 = otherIdReading.Status1 ∧
      sampleReading.Status2 = otherIdReading.Status2 ∧
      sampleReading.Status3 = otherIdReading.Status3 ∧
      sampleReading.Status4 = otherIdReading.Status4) :=
  stored_fields freshDatabase 0 sampleReading otherIdReading rfl

/-! ## C19: the positional insert -/

theorem insert_lists (id now : Int) (s : AirQualityData) :
    insertColumns.map nameKey = (insertArgs s).map (fun a => nameKey a.1) ∧
    insertColumns.map (insertedRow id now s).column
      = (insertArgs s).map (fun a => some a.2) :=
  ⟨rfl, rfl⟩

/-- C19. The `INSERT` of `StoreMeasurement` names 43 columns, has 43 placeholders and is
passed 43 arguments; at every position the argument is the field of the snapshot whose
name is the name of the column at that position, up to case and underscores, and the row
holds the value of that argument under that column; the named columns are pairwise
distinct and each of them is a column of the table `createTables` creates. -/
theorem insert_aligned (id now : Int) (s : AirQualityData) :
    insertColumns.length = 43 ∧
    (insertPlaceholders.data.filter (fun c => c = '?')).length = 43 ∧
    (insertArgs s).length = 43 ∧
    (∀ i : Nat, i < 43 → ∃ c a, insertColumns.get? i = some c ∧
      (insertArgs s).get? i = some a ∧ nameKey c = nameKey a.1 ∧
      (insertedRow id now s).column c = some a.2) ∧
    insertColumns.Nodup ∧
    (∀ c ∈ insertColumns, c ∈ tableColumns ∧ c ≠ "id" ∧ c ≠ "timestamp") := by
  have hlenC : insertColumns.length = 43 := by decide
  have hlenA : (insertArgs s).length = 43 := rfl
  refine ⟨hlenC, by decide, hlenA, ?_, by decide, by decide⟩
  intro i hi
  obtain ⟨hkeys, hcells⟩ := insert_lists id now s
  have hc : i < insertColumns.length := by rw [hlenC]; exact hi
  have ha : i < (insertArgs s).length := by rw [hlenA]; exact hi
  refine ⟨insertColumns[i], (insertArgs s)[i], ?_, ?_, ?_, ?_⟩
  · rw [List.get?_eq_getElem?, List.getElem?_eq_getElem hc]
  · rw [List.get?_eq_getElem?, List.getElem?_eq_getElem ha]
  · have h := congrArg (fun l => l[i]?) hkeys
    simp only [List.getElem?_map, List.getElem?_eq_getElem hc,
      List.getElem?_eq_getElem ha, Option.map_some'] at h
    exact Option.some.inj h
  · have h := congrArg (fun l => l[i]?) hcells
    simp only [List.getElem?_map, List.getElem?_eq_getElem hc,
      List.getElem?_eq_getElem ha, Option.map_some'] at h
    exact Option.some.inj h

/-! ## C20: the text spliced into the queries -/

theorem digitChar_isDigit (d : Nat) (h : d < 10) : (Nat.digitChar d).isDigit = true := by
  interval_cases d <;> rfl

theorem toDigitsCore_isDigit (fuel n : Nat) (acc : List Char)
    (hacc : ∀ c ∈ acc, c.isDigit = true) :
    ∀ c ∈ Nat.toDigitsCore 10 fuel n acc, c.isDigit = true := by
  induction fuel generalizing n acc with
  | zero => simpa [Nat.toDigitsCore] using hacc
  | succ f ih =>
    have hd := digitChar_isDigit (n % 10) (Nat.mod_lt n (by decide))
    have hacc2 : ∀ c ∈ Nat.digitChar (n % 10) :: acc, c.isDigit = true := by
      intro c hc
      rcases List.mem_cons.1 hc with h | h
      · rw [h]; exact hd
      · exact hacc c h
    simp only [Nat.toDigitsCore]
    split
    · exact hacc2
    · exact ih (n / 10) _ hacc2

theorem toDigitsCore_ne_nil (fuel n : Nat) (acc : List Char) (hacc : acc ≠ []) :
    Nat.toDigitsCore 10 fuel n acc ≠ [] := by
  induction fuel generalizing n acc with
  | zero => simpa [Nat.toDigitsCore] using hacc
  | succ f ih =>
    simp only [Nat.toDigitsCore]
    split
    · exact List.cons_ne_nil _ _
    · exact ih (n / 10) _ (List.cons_ne_nil _ _)

theorem toDigits_spec (n : Nat) :
    Nat.toDigits 10 n ≠ [] ∧ ∀ c ∈ Nat.toDigits 10 n, c.isDigit = true := by
  constructor
  · unfold Nat.toDigits
    simp only [Nat.toDigitsCore]
    split
    · exact List.cons_ne_nil _ _
    · exact toDigitsCore_ne_nil _ _ _ (List.cons_ne_nil _ _)
  · exact toDigitsCore_isDigit _ _ _ (fun c hc => absurd hc (List.not_mem_nil c))

theorem isDigit_bounds (c : Char) (h : c.isDigit = true) : 48 ≤ c.toNat ∧ c.toNat ≤ 57 := by
  simp only [Char.isDigit, Bool.and_eq_true, decide_eq_true_eq] at h
  exact h

theorem plain_char (c : Char) (h : 45 ≤ c.toNat ∧ c.toNat ≤ 57) :
    c ≠ quote ∧ c ≠ ';' ∧ isSpace c = false ∧ c.isWhitespace = false := by
  have hne : ∀ x : Char, ¬ (45 ≤ x.toNat ∧ x.toNat ≤ 57) → c ≠ x := by
    intro x hx hcx
    rw [hcx] at h
    exact hx h
  refine ⟨hne _ (by decide), hne _ (by decide), ?_, ?_⟩
  · simp only [isSpace, decide_eq_false_iff_not]
    omega
  · simp only [Char.isWhitespace, Bool.or_eq_false_iff, decide_eq_false_iff_not]
    exact ⟨⟨⟨hne _ (by decide), hne _ (by decide)⟩, hne _ (by decide)⟩,
      hne _ (by decide)⟩


theorem sprintfD_shape (hours : Int) :
    ∃ digits, digits ≠ [] ∧ (∀ c ∈ digits, c.isDigit = true) ∧
      (sprintfD hours = digits ∨ sprintfD hours = '-' :: digits) := by
  cases hours with
  | ofNat n => exact ⟨_, (toDigits_spec n).1, (toDigits_spec n).2, Or.inl rfl⟩
  | negSucc n => exact ⟨_, (toDigits_spec (n + 1)).1, (toDigits_spec (n + 1)).2, Or.inr rfl⟩

theorem sprintfD_plain (hours : Int) :
    ∀ c ∈ sprintfD hours,
      c ≠ quote ∧ c ≠ ';' ∧ isSpace c = false ∧ c.isWhitespace = false := by
  obtain ⟨digits, _, hdig, hshape⟩ := sprintfD_shape hours
  have hd : ∀ c ∈ digits, 45 ≤ c.toNat ∧ c.toNat ≤ 57 := by
    intro c hc
    have := isDigit_bounds c (hdig c hc)
    omega
  intro c hc
  rcases hshape with h | h
  · rw [h] at hc
    exact plain_char c (hd c hc)
  · rw [h] at hc
    rcases List.mem_cons.1 hc with h1 | h1
    · rw [h1]; exact plain_char _ (by decide)
    · exact plain_char c (hd c h1)

/-- The spliced text starts with a minus sign exactly for a negative number, and then the
modifier starts with two. -/
theorem sprintfD_negative (hours : Int) :
    hours < 0 ↔ (sprintfD hours).head? = some '-' := by
  cases hours with
  | ofNat n =>
    have hdig := (toDigits_spec n).2
    have hne := (toDigits_spec n).1
    constructor
    · intro h
      exact absurd h (not_lt.2 (Int.ofNat_nonneg n))
    · intro h
      exfalso
      have hs : sprintfD (Int.ofNat n) = Nat.toDigits 10 n := rfl
      rw [hs] at h
      cases hl : Nat.toDigits 10 n with
      | nil => exact hne hl
      | cons c rest =>
        rw [hl] at h hdig
        have hc : c = '-' := Option.some.inj h
        have := hdig c (List.mem_cons_self c rest)
        rw [hc] at this
        exact absurd this (by decide)
  | negSucc n =>
    exact ⟨fun _ => rfl, fun _ => Int.negSucc_lt_zero n⟩

set_option maxRecDepth 8000 in
theorem query_frames :
    (recentQueryHead.data.filter (fun c => c = quote)).length = 3 ∧
    (statsQueryHead.data.filter (fun c => c = quote)).length = 3 ∧
    recentQueryHead.data.reverse.take 2 = ['-', quote] ∧
    statsQueryHead.data.reverse.take 2 = ['-', quote] ∧
    recentQueryTail.data.takeWhile (fun c => c ≠ quote) = " hours".data ∧
    statsQueryTail.data.takeWhile (fun c => c ≠ quote) = " hours".data := by
  decide

/-- C20. For every `hours`, the text spliced into the SQL of `GetRecentMeasurements` and
`GetMeasurementStats` is an optional minus sign followed by one or more decimal digits,
with no quote, semicolon or white space in it. Each query is its fixed head, the spliced
text and its fixed tail; the head ends inside a text literal that it opened (its third
quote, followed by a minus sign), the literal reads `-`, the spliced text and ` hours`
and is closed by the first quote of the tail, and what follows is the same for every
`hours`: two queries differ only inside that literal. -/
theorem spliced_text_is_a_number (hours : Int) :
    (∃ digits, digits ≠ [] ∧ (∀ c ∈ digits, c.isDigit = true) ∧
      (sprintfD hours = digits ∨ sprintfD hours = '-' :: digits)) ∧
    (∀ c ∈ sprintfD hours,
      c ≠ quote ∧ c ≠ ';' ∧ isSpace c = false ∧ c.isWhitespace = false) ∧
    (recentQuery hours).data
      = recentQueryHead.data ++ sprintfD hours ++ recentQueryTail.data ∧
    (statsQuery hours).data
      = statsQueryHead.data ++ sprintfD hours ++ statsQueryTail.data ∧
    (recentQueryHead.data.filter (fun c => c = quote)).length = 3 ∧
    (statsQueryHead.data.filter (fun c => c = quote)).length = 3 ∧
    recentQueryHead.data.reverse.take 2 = ['-', quote] ∧
    statsQueryHead.data.reverse.take 2 = ['-', quote] ∧
    modifierText hours recentQueryTail = '-' :: (sprintfD hours ++ " hours".data) ∧
    modifierText hours statsQueryTail = '-' :: (sprintfD hours ++ " hours".data) ∧
    (sprintfD hours ++ recentQueryTail.data).dropWhile (fun c => c ≠ quote)
      = recentQueryTail.data.dropWhile (fun c => c ≠ quote) ∧
    (sprintfD hours ++ statsQueryTail.data).dropWhile (fun c => c ≠ quote)
      = statsQueryTail.data.dropWhile (fun c => c ≠ quote) := by
  obtain ⟨h1, h2, h3, h4, h5, h6⟩ := query_frames
  have hplain : ∀ c ∈ sprintfD hours, (fun c => decide (c ≠ quote)) c = true := by
    intro c hc
    simpa using (sprintfD_plain hours c hc).1
  have hdrop : ∀ tail : List Char,
      (sprintfD hours ++ tail).dropWhile (fun c => decide (c ≠ quote))
        = tail.dropWhile (fun c => decide (c ≠ quote)) :=
    fun tail => List.dropWhile_append_of_pos hplain
  refine ⟨sprintfD_shape hours, sprintfD_plain hours, ?_, ?_, h1, h2, h3, h4, ?_, ?_,
    hdrop _, hdrop _⟩
  · simp [recentQuery, String.data_append]
  · simp [statsQuery, String.data_append]
  · unfold modifierText
    rw [List.takeWhile_append_of_pos hplain, h5]
  · unfold modifierText
    rw [List.takeWhile_append_of_pos hplain, h6]

end AirQuality
